import Mathlib

/-!
# Deadline alerts of the note service

A shallow embedding of `utils/alarm.go` (`SetAlarmForNotes`, `displayNotification`),
of the part of Go's `time` package it uses, of the background loop of `main.go`, of the
note service (`GetAllNotes`, `CreateNote`, `UpdateNote`, `DeleteNote`) and of the create
and update handlers of `controllers/note_controller.go`.

Modelling decisions.

* A `time.Time` is the count of nanoseconds since Go's zero time, an unbounded `Int`
  (Go stores an `int64` count of seconds and a nanosecond part; every time decoded from
  JSON or read from the clock is far inside that range).  The monotonic clock reading is
  dropped: `Truncate` strips it before `Sub` is called.
* A `time.Duration` is an `int64` count of nanoseconds; `Time.Sub` saturates at
  `minDuration` / `maxDuration` as the Go function does.
* A note identity is the value of `note.ID` (`uint`), a `Nat`.
* The body of every goroutine started by `SetAlarmForNotes` runs between
  `alertTriggeredLock.Lock()` and the deferred `Unlock()`, so every execution is a sequence of
  whole goroutine bodies; `evalNote` is one body, with the value `time.Now()` returned
  to it as an argument.
* `notifier.Push` is an external sink; the state records the messages handed to
  `displayNotification`, each tagged with the identity of the note whose evaluation made
  the call.
* The repository, the time zone database and the JSON binding are collaborators: what
  they return to the service and to the handlers is an argument of the embedded
  function.  Errors are their `Error()` text.
-/

namespace NoteAlarm

/-! ## `time` -/

/-- Go `time.Duration`: nanoseconds. -/
abbrev Duration := Int

def minDuration : Duration := -(2 ^ 63)
def maxDuration : Duration := 2 ^ 63 - 1

def Nanosecond : Duration := 1
def Microsecond : Duration := 1000 * Nanosecond
def Millisecond : Duration := 1000 * Microsecond
def Second : Duration := 1000 * Millisecond
def Minute : Duration := 60 * Second
def Hour : Duration := 60 * Minute

/-- Go `time.Time`: nanoseconds since the zero time. -/
structure Time where
  ns : Int
deriving DecidableEq

/-- Go `Time.Add`. -/
def Time.Add (t : Time) (d : Duration) : Time := ⟨t.ns + d⟩

/-- Go `Time.Truncate`: round `t` down to a multiple of `d` since the zero time;
`d <= 0` returns `t` unchanged. -/
def Time.Truncate (t : Time) (d : Duration) : Time :=
  if d ≤ 0 then t else ⟨t.ns - t.ns % d⟩

/-- Go `Time.Sub`: the duration `t - u`, replaced by the minimum or maximum duration when
it does not fit. -/
def Time.Sub (t u : Time) : Duration :=
  let d := t.ns - u.ns
  if d < minDuration then minDuration
  else if maxDuration < d then maxDuration
  else d

/-! ## `models.Note` -/

structure Note where
  ID : Nat
  Title : String
  Description : String
  Deadline : Time
  CreatedAt : Time
  UpdatedAt : Time
deriving DecidableEq

/-! ## `map[uint]bool` -/

/-- Go `map[uint]bool` as an association list with at most one entry per key. -/
abbrev AlertMap := List (Nat × Bool)

/-- Go `m[k]`: the stored value, `false` for an absent key. -/
def mapGet (m : AlertMap) (k : Nat) : Bool :=
  match m.lookup k with
  | some b => b
  | none => false

/-- Go `m[k] = v`. -/
def mapSet (m : AlertMap) (k : Nat) (v : Bool) : AlertMap :=
  (k, v) :: m.filter (fun p => p.1 != k)

/-! ## `utils/alarm.go` -/

/-- One call of `displayNotification`: the message, and the identity of the note whose
evaluation made the call. -/
structure Push where
  noteID : Nat
  msg : String
deriving DecidableEq

/-- The package state of `utils`: the `alertTriggered` map and the messages handed to the
notifier so far, oldest first. -/
structure AlarmState where
  alertTriggered : AlertMap
  pushed : List Push
deriving DecidableEq

/-- State after `alertTriggered = make(map[uint]bool)` with nothing pushed. -/
def initState : AlarmState := ⟨[], []⟩

/-- `displayNotification(msg)`, called from the evaluation of note `id`. -/
def displayNotification (st : AlarmState) (id : Nat) (msg : String) : AlarmState :=
  { st with pushed := st.pushed ++ [⟨id, msg⟩] }

/-- `alertTriggered[id] = true`. -/
def markTriggered (st : AlarmState) (id : Nat) : AlarmState :=
  { st with alertTriggered := mapSet st.alertTriggered id true }

/-- The cases of the `switch` in `SetAlarmForNotes`, in source order; `None` stands for no
case matching. -/
inductive AlertTier where
  | Overdue
  | ThirtyMinutes
  | OneHour
  | SixHours
  | OneDay
  | None
deriving DecidableEq

/-- The `remainingTime` of `SetAlarmForNotes`: deadline and current time are each
truncated to the second, then subtracted. -/
def remainingTime (deadline now : Time) : Duration :=
  (deadline.Truncate Second).Sub (now.Truncate Second)

/-- The case of the `switch` that is taken for a value of `remainingTime`. -/
def switchCase (remainingTime : Duration) : AlertTier :=
  if remainingTime ≤ 0 then .Overdue
  else if remainingTime ≤ 30 * Minute then .ThirtyMinutes
  else if remainingTime ≤ 1 * Hour then .OneHour
  else if remainingTime ≤ 6 * Hour then .SixHours
  else if remainingTime ≤ 24 * Hour then .OneDay
  else .None

/-- The tier the evaluation of a note with this deadline selects at time `now`. -/
def selectedTier (deadline now : Time) : AlertTier :=
  switchCase (remainingTime deadline now)

/-- The body of each case of the `switch`: `fmt.Sprintf` of the case's format string with
the title, `displayNotification`, then `alertTriggered[note.ID] = true`. -/
def caseBody (st : AlarmState) (note : Note) : AlertTier → AlarmState
  | .Overdue =>
      markTriggered
        (displayNotification st note.ID ("ALERT: Note '" ++ note.Title ++ "' is overdue!"))
        note.ID
  | .ThirtyMinutes =>
      markTriggered
        (displayNotification st note.ID
          ("ALERT: Note '" ++ note.Title ++ "' has 30 minutes remaining.\n"))
        note.ID
  | .OneHour =>
      markTriggered
        (displayNotification st note.ID
          ("ALERT: Note '" ++ note.Title ++ "' has 1 hour remaining.\n"))
        note.ID
  | .SixHours =>
      markTriggered
        (displayNotification st note.ID
          ("ALERT: Note '" ++ note.Title ++ "' has 6 hours remaining.\n"))
        note.ID
  | .OneDay =>
      markTriggered
        (displayNotification st note.ID
          ("ALERT: Note '" ++ note.Title ++ "' has 1 day remaining.\n"))
        note.ID
  | .None => st

/-- The goroutine body of `SetAlarmForNotes` for one note, `now` being the value of
`time.Now()`: return at once if the note's identity has fired, else run the `switch`. -/
def evalNote (st : AlarmState) (note : Note) (now : Time) : AlarmState :=
  if mapGet st.alertTriggered note.ID then st
  else caseBody st note (switchCase (remainingTime note.Deadline now))

/-- A sequence of goroutine bodies in the order in which they hold the lock: each entry is
the note evaluated and the clock value it reads. -/
def runEvals (st : AlarmState) (evs : List (Note × Time)) : AlarmState :=
  evs.foldl (fun s e => evalNote s e.1 e.2) st

/-- `SetAlarmForNotes(notes)`: one goroutine per note; `order` lists the indices of the
notes in the order in which their goroutines hold the lock, and goroutine `i` reads the
clock value `clock i`. -/
def SetAlarmForNotes (st : AlarmState) (notes : List Note) (order : List Nat)
    (clock : Nat → Time) : AlarmState :=
  order.foldl
    (fun s i =>
      match notes.get? i with
      | some note => evalNote s note (clock i)
      | none => s)
    st

/-- The notifications pushed for the identity `id`. -/
def pushesFor (id : Nat) (st : AlarmState) : List Push :=
  st.pushed.filter (fun p => p.noteID == id)

/-- The dedup invariant: an identity whose flag is not set has no notification, and no
identity has more than one. -/
def DedupInv (st : AlarmState) : Prop :=
  ∀ id, (mapGet st.alertTriggered id = false → pushesFor id st = []) ∧
    (pushesFor id st).length ≤ 1

/-! ## `services` and `main` -/

/-- `NoteServiceImpl.GetAllNotes`, given what `noteRepository.GetAll()` returned: on an
error the notes are dropped (`nil`) and a fixed error is returned. -/
def GetAllNotes (repoResult : List Note × Option String) : List Note × Option String :=
  match repoResult.2 with
  | some _ => ([], some "failed to get all notes")
  | none => (repoResult.1, none)

/-- What one iteration of the background loop of `main` receives: the result of the
repository, and the schedule of the goroutines it starts. -/
structure TickInput where
  repoResult : List Note × Option String
  order : List Nat
  clock : Nat → Time

/-- One iteration of the background loop of `main`: `GetAllNotes`, a log line on error
(no effect on the package state), then `SetAlarmForNotes(notes)` in either case. -/
def mainTick (st : AlarmState) (t : TickInput) : AlarmState :=
  let r := GetAllNotes t.repoResult
  SetAlarmForNotes st r.1 t.order t.clock

/-- The background loop of `main`, one entry of `ticks` per iteration. -/
def backgroundLoop (st : AlarmState) (ticks : List TickInput) : AlarmState :=
  ticks.foldl mainTick st

/-! ## The tier table as the specification words it -/

/-- The specification's `classify`: `remaining = deadline - now` truncated to whole
seconds (toward zero, as Go's `Duration.Truncate`), then the first match of the table.
The value is in seconds. -/
def specRemainingSeconds (deadline now : Time) : Int :=
  Int.tdiv (deadline.ns - now.ns) 1000000000

/-- The tier table over a whole number of seconds. -/
def classifySeconds (s : Int) : AlertTier :=
  if s ≤ 0 then .Overdue
  else if s ≤ 30 * 60 then .ThirtyMinutes
  else if s ≤ 60 * 60 then .OneHour
  else if s ≤ 6 * 60 * 60 then .SixHours
  else if s ≤ 24 * 60 * 60 then .OneDay
  else .None

/-- The specification's `classify(deadline, now)`. -/
def classify (deadline now : Time) : AlertTier :=
  classifySeconds (specRemainingSeconds deadline now)

/-- Whole seconds since the zero time, rounded down. -/
def Time.unixFloor (t : Time) : Int := t.ns / 1000000000

/-! ## The goroutine body as a sequence of effects -/

/-- What the goroutine body of `SetAlarmForNotes` does, in program order. -/
inductive Effect where
  /-- Call of `alertTriggeredLock.Lock()`. -/
  | lock
  /-- The deferred `alertTriggeredLock.Unlock()`, run when the body returns. -/
  | unlock
  /-- The read `alertTriggered[note.ID]` of the `if`. -/
  | readFlag (id : Nat)
  /-- Call of `displayNotification(msg)`, that is of `notifier.Push`. -/
  | push (id : Nat) (msg : String)
  /-- The write `alertTriggered[note.ID] = true`. -/
  | setFlag (id : Nat)
deriving DecidableEq

/-- The `fmt.Sprintf` of each case of the `switch`; no message when no case matches. -/
def caseMessage (title : String) : AlertTier → Option String
  | .Overdue => some ("ALERT: Note '" ++ title ++ "' is overdue!")
  | .ThirtyMinutes => some ("ALERT: Note '" ++ title ++ "' has 30 minutes remaining.\n")
  | .OneHour => some ("ALERT: Note '" ++ title ++ "' has 1 hour remaining.\n")
  | .SixHours => some ("ALERT: Note '" ++ title ++ "' has 6 hours remaining.\n")
  | .OneDay => some ("ALERT: Note '" ++ title ++ "' has 1 day remaining.\n")
  | .None => none

/-- The statements of a case of the `switch`, in source order: the call of
`displayNotification` first, the write of the flag second. -/
def caseTrace (note : Note) (t : AlertTier) : List Effect :=
  match caseMessage note.Title t with
  | some msg => [.push note.ID msg, .setFlag note.ID]
  | none => []

/-- The goroutine body in program order: `Lock`, the read of the flag, the case of the
`switch` unless the flag was set, and the deferred `Unlock` on return. -/
def evalNoteTrace (st : AlarmState) (note : Note) (now : Time) : List Effect :=
  [.lock, .readFlag note.ID] ++
    (if mapGet st.alertTriggered note.ID then []
     else caseTrace note (switchCase (remainingTime note.Deadline now))) ++
    [.unlock]

/-- The change an effect makes to the package state. -/
def applyEffect (st : AlarmState) : Effect → AlarmState
  | .push id msg => displayNotification st id msg
  | .setFlag id => markTriggered st id
  | .lock => st
  | .unlock => st
  | .readFlag _ => st

def applyEffects (st : AlarmState) (tr : List Effect) : AlarmState :=
  tr.foldl applyEffect st

/-- Whether every `push` of the trace comes after a `setFlag` of the same identity;
`seen` holds the identities whose flag the trace has written so far. -/
def flagSetBeforePushFrom (seen : List Nat) : List Effect → Bool
  | [] => true
  | .setFlag id :: rest => flagSetBeforePushFrom (id :: seen) rest
  | .push id _ :: rest => seen.contains id && flagSetBeforePushFrom seen rest
  | .lock :: rest => flagSetBeforePushFrom seen rest
  | .unlock :: rest => flagSetBeforePushFrom seen rest
  | .readFlag _ :: rest => flagSetBeforePushFrom seen rest

def flagSetBeforePush (tr : List Effect) : Bool := flagSetBeforePushFrom [] tr

/-- Whether every `push` of the trace happens while the lock is not held; `held` tells
whether it is held at the start. -/
def pushesOutsideLockFrom (held : Bool) : List Effect → Bool
  | [] => true
  | .lock :: rest => pushesOutsideLockFrom true rest
  | .unlock :: rest => pushesOutsideLockFrom false rest
  | .push _ _ :: rest => !held && pushesOutsideLockFrom held rest
  | .readFlag _ :: rest => pushesOutsideLockFrom held rest
  | .setFlag _ :: rest => pushesOutsideLockFrom held rest

def pushesOutsideLock (tr : List Effect) : Bool := pushesOutsideLockFrom false tr

/-- Whether every `push` and every `setFlag` of the trace happens while the lock is
held. -/
def effectsUnderLockFrom (held : Bool) : List Effect → Bool
  | [] => true
  | .lock :: rest => effectsUnderLockFrom true rest
  | .unlock :: rest => effectsUnderLockFrom false rest
  | .push _ _ :: rest => held && effectsUnderLockFrom held rest
  | .setFlag _ :: rest => held && effectsUnderLockFrom held rest
  | .readFlag _ :: rest => held && effectsUnderLockFrom held rest

def effectsUnderLock (tr : List Effect) : Bool := effectsUnderLockFrom false tr

/-! ## The notifier as a parameter -/

/-- The goroutine body with the notifier as a parameter: `deliver msg` is the error that
`notifier.Push` returns for `msg` (`none` for `nil`).  `displayNotification` calls it as
an expression statement, so the value is dropped; the second component lists the values
returned during the evaluation. -/
def evalNoteVia (deliver : String → Option String) (st : AlarmState) (note : Note)
    (now : Time) : AlarmState × List (Option String) :=
  if mapGet st.alertTriggered note.ID then (st, [])
  else
    match caseMessage note.Title (switchCase (remainingTime note.Deadline now)) with
    | some msg => (markTriggered (displayNotification st note.ID msg) note.ID, [deliver msg])
    | none => (st, [])

/-- A sequence of goroutine bodies with the notifier as a parameter. -/
def runEvalsVia (deliver : String → Option String) (st : AlarmState)
    (evs : List (Note × Time)) : AlarmState :=
  evs.foldl (fun s e => (evalNoteVia deliver s e.1 e.2).1) st

/-! ## Observations on a run -/

/-- The value of `alertTriggered[note.ID]` that each evaluation of a sequence reads. -/
def observedFlags : AlarmState → List (Note × Time) → List Bool
  | _, [] => []
  | st, e :: es => mapGet st.alertTriggered e.1.ID :: observedFlags (evalNote st e.1 e.2) es

/-- The evaluations that `SetAlarmForNotes` starts, in the order of `order`. -/
def scheduled (notes : List Note) (order : List Nat) (clock : Nat → Time) :
    List (Note × Time) :=
  order.filterMap (fun i => (notes.get? i).map (fun note => (note, clock i)))

/-- Whether goroutine `i` of a snapshot finds at most 24 hours of `remainingTime`. -/
def inWindow (notes : List Note) (clock : Nat → Time) (i : Nat) : Bool :=
  match notes.get? i with
  | some note => decide (remainingTime note.Deadline (clock i) ≤ 24 * Hour)
  | none => false

/-- Rank of a tier in the order None < OneDay < SixHours < OneHour < ThirtyMinutes <
Overdue. -/
def urgency : AlertTier → Nat
  | .None => 0
  | .OneDay => 1
  | .SixHours => 2
  | .OneHour => 3
  | .ThirtyMinutes => 4
  | .Overdue => 5

/-! ## `repository` and `services`: create, update, delete -/

/-- An error returned by the repository: gorm's `ErrRecordNotFound`, or any other error
with its message. -/
inductive RepoError where
  | recordNotFound
  | other (msg : String)
deriving DecidableEq

/-- Go `err.Error()`. -/
def RepoError.Error : RepoError → String
  | .recordNotFound => "record not found"
  | .other msg => msg

def containsChars : List Char → List Char → Bool
  | [], sub => sub.isEmpty
  | c :: cs, sub => sub.isPrefixOf (c :: cs) || containsChars cs sub

/-- Go `strings.Contains(s, substr)`. -/
def stringsContains (s substr : String) : Bool :=
  containsChars s.data substr.data

/-- What a call of the note service leaves behind: the error it returns (`none` for
`nil`), the note behind the pointer it was given, and the argument of its call of
`utils.SetAlarmForNotes` (empty when it makes none). -/
structure ServiceResult where
  err : Option String
  note : Note
  alarms : List Note
deriving DecidableEq

/-- What `CreateNote` gets from its collaborators: the result of
`noteRepository.GetNoteByTitle`, the error of `time.LoadLocation`, the result of
`time.ParseInLocation` on the formatted deadline, the two readings of `time.Now()`, the
error of `noteRepository.Create` and the ID the store leaves in the note. -/
structure CreateEnv where
  byTitle : Option Note × Option RepoError
  location : Option String
  parsed : Except String Time
  createdAt : Time
  updatedAt : Time
  created : Option RepoError
  newID : Nat

/-- `NoteServiceImpl.CreateNote`. -/
def CreateNote (note : Note) (env : CreateEnv) : ServiceResult :=
  match env.byTitle.2 with
  | some (.other _) => ⟨some "failed to check duplicate title", note, []⟩
  | _ =>
    if env.byTitle.1.isSome then
      ⟨some "duplicate title, please choose a different title", note, []⟩
    else
      match env.location with
      | some e => ⟨some e, note, []⟩
      | none =>
        match env.parsed with
        | .error e => ⟨some e, note, []⟩
        | .ok deadline =>
          let note1 : Note :=
            { note with
              Deadline := deadline, CreatedAt := env.createdAt, UpdatedAt := env.updatedAt }
          match env.created with
          | some e =>
            if stringsContains e.Error "duplicate key value" then
              ⟨some "duplicate title, please choose a different title", note1, []⟩
            else ⟨some ("failed to create note: " ++ e.Error), note1, []⟩
          | none =>
            let note2 : Note := { note1 with ID := env.newID }
            ⟨none, note2, [note2]⟩

/-- What `UpdateNote` gets from its collaborators: the result of
`noteRepository.GetById`, the error of `time.LoadLocation`, the result of
`time.ParseInLocation`, the reading of `time.Now()` and the error of
`noteRepository.Update`. -/
structure UpdateEnv where
  byId : Option Note × Option RepoError
  location : Option String
  parsed : Except String Time
  updatedAt : Time
  updated : Option RepoError

/-- `NoteServiceImpl.UpdateNote`. -/
def UpdateNote (note : Note) (env : UpdateEnv) : ServiceResult :=
  match env.byId.2 with
  | some e => ⟨some ("failed to retrieve existing note: " ++ e.Error), note, []⟩
  | none =>
    match env.byId.1 with
    | none => ⟨some "note not found", note, []⟩
    | some existingNote =>
      if existingNote.ID ≠ 0 ∧ existingNote.ID ≠ note.ID then
        ⟨some "duplicate title, please choose a different title", note, []⟩
      else
        match env.location with
        | some e => ⟨some e, note, []⟩
        | none =>
          match env.parsed with
          | .error e => ⟨some e, note, []⟩
          | .ok deadline =>
            let note1 : Note := { note with Deadline := deadline, UpdatedAt := env.updatedAt }
            match env.updated with
            | some _ => ⟨some "failed to update note", note1, []⟩
            | none => ⟨none, note1, [note1]⟩

/-- `NoteServiceImpl.DeleteNote`, given the error of `noteRepository.Delete`. -/
def DeleteNote (deleted : Option RepoError) : Option String :=
  match deleted with
  | some _ => some "failed to delete note"
  | none => none

/-- An operation of the program that can touch the package state of `utils`: an
iteration of the background loop, or a call of the note service.  A create or update
starts at most one goroutine, which reads the clock value `clock`. -/
inductive Op where
  | tick (t : TickInput)
  | create (note : Note) (env : CreateEnv) (clock : Time)
  | update (note : Note) (env : UpdateEnv) (clock : Time)
  | delete (id : Nat) (deleted : Option RepoError)

/-- The package state after an operation and the goroutines it started. -/
def applyOp (st : AlarmState) : Op → AlarmState
  | .tick t => mainTick st t
  | .create note env clock =>
      SetAlarmForNotes st (CreateNote note env).alarms [0] (fun _ => clock)
  | .update note env clock =>
      SetAlarmForNotes st (UpdateNote note env).alarms [0] (fun _ => clock)
  | .delete _ _ => st

def runOps (st : AlarmState) (ops : List Op) : AlarmState :=
  ops.foldl applyOp st

/-! ## `controllers` -/

/-- The JSON object of a response: `{"error": msg}`, or `{"message": msg, "note": note}`. -/
inductive Body where
  | error (msg : String)
  | message (msg : String) (note : Note)
deriving DecidableEq

structure Response where
  status : Nat
  body : Body
deriving DecidableEq

/-- The response of a handler and the arguments of its calls of the note service. -/
structure HandlerResult where
  response : Response
  calls : List Note
deriving DecidableEq

/-- The text of a `validator` field error for an unnamed variable and a failed tag. -/
def fieldErrorText (tag : String) : String :=
  "Key: '' Error:Field validation for '' failed on the '" ++ tag ++ "' tag"

/-- The call `validate.Var(title, "required,min=3,max=50")` of the validator package:
`required` fails on the empty string, `min` and `max` compare the number of runes; the
first failing tag is reported. -/
def validateVar (title : String) : Option String :=
  if title.length = 0 then some (fieldErrorText "required")
  else if title.length < 3 then some (fieldErrorText "min")
  else if 50 < title.length then some (fieldErrorText "max")
  else none

/-- `validateNoteFields`. -/
def validateNoteFields (note : Note) : Option String :=
  validateVar note.Title

/-- Go `strconv.ParseUint(s, 10, 64)`: decimal digits only, no sign, at most 64 bits. -/
def ParseUint (s : String) : Option Nat :=
  if s.data.isEmpty || !(s.data.all Char.isDigit) then none
  else
    let v := s.data.foldl (fun n c => 10 * n + (c.toNat - 48)) 0
    if v < 2 ^ 64 then some v else none

/-- `NoteController.CreateNoteHandler`: `bind` is the result of `ctx.ShouldBindJSON` on
the request body, `svc` the `CreateNote` of the note service. -/
def CreateNoteHandler (bind : Except String Note) (svc : Note → ServiceResult) :
    HandlerResult :=
  match bind with
  | .error e => ⟨⟨400, .error e⟩, []⟩
  | .ok note =>
    match validateNoteFields note with
    | some e => ⟨⟨400, .error e⟩, []⟩
    | none =>
      let r := svc note
      match r.err with
      | some e =>
        if stringsContains e "duplicate title" then
          ⟨⟨400, .error "Duplicate title, please choose a different title"⟩, [note]⟩
        else ⟨⟨500, .error "Failed to create note"⟩, [note]⟩
      | none => ⟨⟨201, .message "Note created successfully" r.note⟩, [note]⟩

/-- `NoteController.UpdateNoteHandler`: `idParam` is `ctx.Param("id")`. -/
def UpdateNoteHandler (idParam : String) (bind : Except String Note)
    (svc : Note → ServiceResult) : HandlerResult :=
  match ParseUint idParam with
  | none => ⟨⟨400, .error "Invalid note ID"⟩, []⟩
  | some noteID =>
    match bind with
    | .error e => ⟨⟨400, .error e⟩, []⟩
    | .ok updatedNote =>
      match validateNoteFields updatedNote with
      | some e => ⟨⟨400, .error e⟩, []⟩
      | none =>
        let updatedNote1 : Note := { updatedNote with ID := noteID }
        let r := svc updatedNote1
        match r.err with
        | some e =>
          if stringsContains e "duplicate title" then
            ⟨⟨400, .error "Duplicate title, please choose a different title"⟩, [updatedNote1]⟩
          else ⟨⟨500, .error "Failed to update note"⟩, [updatedNote1]⟩
        | none => ⟨⟨200, .message "Note updated successfully" r.note⟩, [updatedNote1]⟩

/-! ## Arithmetic of the embedding -/

theorem Second_eq : Second = 1000000000 := by decide

theorem Minute_eq : Minute = 60000000000 := by decide

theorem Hour_eq : Hour = 3600000000000 := by decide

theorem minDuration_eq : minDuration = -9223372036854775808 := by decide

theorem maxDuration_eq : maxDuration = 9223372036854775807 := by decide

/-- Truncating to the second keeps the whole seconds since the zero time. -/
theorem truncate_second_ns (t : Time) :
    (t.Truncate Second).ns = 1000000000 * t.unixFloor := by
  simp only [Time.Truncate, Second_eq, Time.unixFloor]
  rw [if_neg (by decide)]
  show t.ns - t.ns % 1000000000 = 1000000000 * (t.ns / 1000000000)
  omega

/-- The saturating subtraction applied to two truncated times. -/
theorem remainingTime_eq (deadline now : Time) :
    remainingTime deadline now =
      (if 1000000000 * (deadline.unixFloor - now.unixFloor) < -9223372036854775808 then
        -9223372036854775808
      else if 9223372036854775807 < 1000000000 * (deadline.unixFloor - now.unixFloor) then
        9223372036854775807
      else 1000000000 * (deadline.unixFloor - now.unixFloor)) := by
  simp only [remainingTime, Time.Sub, truncate_second_ns, minDuration_eq, maxDuration_eq]
  rw [← mul_sub]

/-- The `switch` over a saturated whole number of seconds is the table over the seconds. -/
theorem switchCase_seconds (k : Int) :
    switchCase
        (if 1000000000 * k < -9223372036854775808 then -9223372036854775808
         else if 9223372036854775807 < 1000000000 * k then 9223372036854775807
         else 1000000000 * k) =
      classifySeconds k := by
  by_cases hlo : 1000000000 * k < -9223372036854775808
  · rw [if_pos hlo]
    have hk : k ≤ 0 := by omega
    have hl : switchCase (-9223372036854775808) = AlertTier.Overdue := by decide
    rw [hl, classifySeconds, if_pos hk]
  · rw [if_neg hlo]
    by_cases hhi : 9223372036854775807 < 1000000000 * k
    · rw [if_pos hhi]
      have hl : switchCase 9223372036854775807 = AlertTier.None := by decide
      rw [hl, classifySeconds, if_neg (by omega), if_neg (by omega), if_neg (by omega),
        if_neg (by omega), if_neg (by omega)]
    · rw [if_neg hhi]
      simp only [switchCase, classifySeconds, Minute_eq, Hour_eq]
      delta Duration
      by_cases h0 : k ≤ 0
      · rw [if_pos h0, if_pos (by omega)]
      · rw [if_neg h0, if_neg (by omega)]
        by_cases h1 : k ≤ 30 * 60
        · rw [if_pos h1, if_pos (by omega)]
        · rw [if_neg h1, if_neg (by omega)]
          by_cases h2 : k ≤ 60 * 60
          · rw [if_pos h2, if_pos (by omega)]
          · rw [if_neg h2, if_neg (by omega)]
            by_cases h3 : k ≤ 6 * 60 * 60
            · rw [if_pos h3, if_pos (by omega)]
            · rw [if_neg h3, if_neg (by omega)]
              by_cases h4 : k ≤ 24 * 60 * 60
              · rw [if_pos h4, if_pos (by omega)]
              · rw [if_neg h4, if_neg (by omega)]

theorem selectedTier_eq_classifySeconds (deadline now : Time) :
    selectedTier deadline now = classifySeconds (deadline.unixFloor - now.unixFloor) := by
  rw [selectedTier, remainingTime_eq, switchCase_seconds]

/-! ## Tier selection (C2 to C5) -/

/-- C2, as stated, fails: with the deadline at 11.1 s and the clock at 10.9 s the code
truncates both first and sees one second remaining (`ThirtyMinutes`), while the
difference of 0.2 s truncated to whole seconds is zero (`Overdue`). -/
theorem C2_counterexample :
    selectedTier ⟨11100000000⟩ ⟨10900000000⟩ = AlertTier.ThirtyMinutes ∧
      classify ⟨11100000000⟩ ⟨10900000000⟩ = AlertTier.Overdue ∧
      selectedTier ⟨11100000000⟩ ⟨10900000000⟩ ≠ classify ⟨11100000000⟩ ⟨10900000000⟩ := by
  decide

/-- C2, amended: the tier selected by the evaluation is the first match of the table
applied to the whole seconds of the deadline minus the whole seconds of the current
time, each rounded down before the subtraction. -/
theorem C2_selectedTier_truncates_operands (deadline now : Time) :
    selectedTier deadline now = classifySeconds (deadline.unixFloor - now.unixFloor) ∧
      deadline.unixFloor * 1000000000 = (deadline.Truncate Second).ns ∧
      now.unixFloor * 1000000000 = (now.Truncate Second).ns := by
  refine ⟨selectedTier_eq_classifySeconds deadline now, ?_, ?_⟩
  · rw [truncate_second_ns, mul_comm]
  · rw [truncate_second_ns, mul_comm]

/-- C3: when the deadline is not after the current time, also by less than a second, the
evaluation of a note that has not fired takes the overdue case. -/
theorem C3_overdue_selected (st : AlarmState) (note : Note) (now : Time)
    (hfresh : mapGet st.alertTriggered note.ID = false)
    (hle : note.Deadline.ns - now.ns ≤ 0) :
    selectedTier note.Deadline now = AlertTier.Overdue ∧
      evalNote st note now = caseBody st note AlertTier.Overdue := by
  have h : selectedTier note.Deadline now = AlertTier.Overdue := by
    rw [selectedTier_eq_classifySeconds]
    simp only [classifySeconds, Time.unixFloor]
    rw [if_pos (by omega)]
  refine ⟨h, ?_⟩
  rw [selectedTier] at h
  simp [evalNote, hfresh, h]

theorem C3_overdue_selected_witness :
    mapGet initState.alertTriggered 7 = false ∧
      ((⟨10500000000⟩ : Time).ns - (⟨10900000000⟩ : Time).ns ≤ 0) ∧
      selectedTier ⟨10500000000⟩ ⟨10900000000⟩ = AlertTier.Overdue ∧
      evalNote initState ⟨7, "a", "", ⟨10500000000⟩, ⟨0⟩, ⟨0⟩⟩ ⟨10900000000⟩ =
        caseBody initState ⟨7, "a", "", ⟨10500000000⟩, ⟨0⟩, ⟨0⟩⟩ AlertTier.Overdue :=
  ⟨by decide, by decide,
    C3_overdue_selected initState ⟨7, "a", "", ⟨10500000000⟩, ⟨0⟩, ⟨0⟩⟩ ⟨10900000000⟩
      (by decide) (by decide)⟩

/-- C4, as stated, fails: a deadline 30 minutes and half a second after a clock value on a
whole second is truncated to 30 minutes exactly, and the evaluation selects
`ThirtyMinutes`. -/
theorem C4_counterexample :
    ¬ ∀ deadline now : Time,
        30 * Minute < deadline.ns - now.ns → deadline.ns - now.ns ≤ 1 * Hour →
          selectedTier deadline now = AlertTier.OneHour := by
  intro h
  have h1 := h ⟨1800500000000⟩ ⟨0⟩ (by decide) (by decide)
  revert h1
  decide

/-- C4, amended: the evaluation selects `OneHour` when the deadline and the current
time, each truncated to the second, differ by more than 30 minutes and at most one
hour; that is so whenever the deadline is at least 30 minutes and one second, and at most
one hour, after the current time. -/
theorem C4_one_hour_selected (deadline now : Time) :
    (30 * Minute < (deadline.Truncate Second).ns - (now.Truncate Second).ns →
        (deadline.Truncate Second).ns - (now.Truncate Second).ns ≤ 1 * Hour →
        selectedTier deadline now = AlertTier.OneHour) ∧
      (30 * Minute + Second ≤ deadline.ns - now.ns → deadline.ns - now.ns ≤ 1 * Hour →
        selectedTier deadline now = AlertTier.OneHour) := by
  simp only [truncate_second_ns]
  simp only [selectedTier_eq_classifySeconds, classifySeconds, Time.unixFloor, Minute_eq,
    Hour_eq, Second_eq]
  delta Duration
  constructor
  · intro h1 h2
    rw [if_neg (by omega), if_neg (by omega), if_pos (by omega)]
  · intro h1 h2
    rw [if_neg (by omega), if_neg (by omega), if_pos (by omega)]

theorem C4_one_hour_selected_witness :
    selectedTier ⟨1801500000000⟩ ⟨400000000⟩ = AlertTier.OneHour :=
  (C4_one_hour_selected ⟨1801500000000⟩ ⟨400000000⟩).2 (by decide) (by decide)

/-- C5: a deadline exactly 0, 30 minutes, 1 hour, 6 hours or 24 hours after the current
time selects `Overdue`, `ThirtyMinutes`, `OneHour`, `SixHours` or `OneDay`. -/
theorem C5_boundaries_closed (deadline now : Time) :
    (deadline.ns - now.ns = 0 → selectedTier deadline now = AlertTier.Overdue) ∧
      (deadline.ns - now.ns = 30 * Minute →
        selectedTier deadline now = AlertTier.ThirtyMinutes) ∧
      (deadline.ns - now.ns = 1 * Hour → selectedTier deadline now = AlertTier.OneHour) ∧
      (deadline.ns - now.ns = 6 * Hour → selectedTier deadline now = AlertTier.SixHours) ∧
      (deadline.ns - now.ns = 24 * Hour → selectedTier deadline now = AlertTier.OneDay) := by
  simp only [selectedTier_eq_classifySeconds, classifySeconds, Time.unixFloor, Minute_eq,
    Hour_eq]
  delta Duration
  refine ⟨?_, ?_, ?_, ?_, ?_⟩
  · intro h
    rw [if_pos (by omega)]
  · intro h
    rw [if_neg (by omega), if_pos (by omega)]
  · intro h
    rw [if_neg (by omega), if_neg (by omega), if_pos (by omega)]
  · intro h
    rw [if_neg (by omega), if_neg (by omega), if_neg (by omega), if_pos (by omega)]
  · intro h
    rw [if_neg (by omega), if_neg (by omega), if_neg (by omega), if_neg (by omega),
      if_pos (by omega)]

theorem C5_boundaries_closed_witness :
    selectedTier ((⟨12345678901⟩ : Time).Add (30 * Minute)) ⟨12345678901⟩ =
      AlertTier.ThirtyMinutes :=
  (C5_boundaries_closed ((⟨12345678901⟩ : Time).Add (30 * Minute)) ⟨12345678901⟩).2.1
    (by decide)

/-! ## The dedup map and one evaluation -/

theorem lookup_filter_ne (m : AlertMap) (j k : Nat) (h : j ≠ k) :
    (m.filter (fun p => p.1 != k)).lookup j = m.lookup j := by
  induction m with
  | nil => rfl
  | cons p m ih =>
    obtain ⟨a, b⟩ := p
    by_cases hak : a = k
    · subst hak
      have hja : (j == a) = false := by simpa using h
      simp [List.filter_cons, List.lookup_cons, hja, ih]
    · have hne : (a != k) = true := by simpa using hak
      simp only [List.filter_cons, hne, if_true, List.lookup_cons]
      cases hj : (j == a) with
      | true => rfl
      | false => exact ih

theorem mapGet_mapSet_self (m : AlertMap) (k : Nat) (v : Bool) :
    mapGet (mapSet m k v) k = v := by
  simp [mapGet, mapSet, List.lookup_cons]

theorem mapGet_mapSet_ne (m : AlertMap) (j k : Nat) (v : Bool) (h : j ≠ k) :
    mapGet (mapSet m k v) j = mapGet m j := by
  have hjk : (j == k) = false := by simpa using h
  simp only [mapGet, mapSet, List.lookup_cons, hjk]
  rw [lookup_filter_ne m j k h]

/-- Every case of the `switch` pushes one message and sets the flag of the note. -/
theorem caseBody_fires (st : AlarmState) (note : Note) (t : AlertTier)
    (ht : t ≠ AlertTier.None) :
    ∃ msg, caseBody st note t =
      ⟨mapSet st.alertTriggered note.ID true, st.pushed ++ [⟨note.ID, msg⟩]⟩ := by
  cases t with
  | None => exact absurd rfl ht
  | Overdue => exact ⟨_, rfl⟩
  | ThirtyMinutes => exact ⟨_, rfl⟩
  | OneHour => exact ⟨_, rfl⟩
  | SixHours => exact ⟨_, rfl⟩
  | OneDay => exact ⟨_, rfl⟩

theorem evalNote_fired (st : AlarmState) (note : Note) (now : Time)
    (h : mapGet st.alertTriggered note.ID = true) : evalNote st note now = st := by
  simp [evalNote, h]

theorem evalNote_fresh (st : AlarmState) (note : Note) (now : Time)
    (h : mapGet st.alertTriggered note.ID = false) :
    evalNote st note now = caseBody st note (selectedTier note.Deadline now) := by
  simp [evalNote, h, selectedTier]

/-- One evaluation either leaves the state as it is, or pushes one message for a note whose
flag was not set and sets that flag. -/
theorem evalNote_cases (st : AlarmState) (note : Note) (now : Time) :
    evalNote st note now = st ∨
      (mapGet st.alertTriggered note.ID = false ∧
        ∃ msg, evalNote st note now =
          ⟨mapSet st.alertTriggered note.ID true, st.pushed ++ [⟨note.ID, msg⟩]⟩) := by
  cases hf : mapGet st.alertTriggered note.ID with
  | true => exact Or.inl (evalNote_fired st note now hf)
  | false =>
    rw [evalNote_fresh st note now hf]
    by_cases ht : selectedTier note.Deadline now = AlertTier.None
    · rw [ht]
      exact Or.inl rfl
    · exact Or.inr ⟨rfl, caseBody_fires st note _ ht⟩

theorem pushesFor_append_self (st : AlarmState) (m : AlertMap) (id : Nat) (msg : String) :
    pushesFor id ⟨m, st.pushed ++ [⟨id, msg⟩]⟩ = pushesFor id st ++ [⟨id, msg⟩] := by
  simp [pushesFor, List.filter_append]

theorem pushesFor_append_ne (st : AlarmState) (m : AlertMap) (id k : Nat) (msg : String)
    (h : k ≠ id) :
    pushesFor id ⟨m, st.pushed ++ [⟨k, msg⟩]⟩ = pushesFor id st := by
  simp [pushesFor, List.filter_append, h]

/-- Once the flag of `id` is set, an evaluation keeps it set and pushes nothing for `id`. -/
theorem evalNote_keeps_fired (st : AlarmState) (note : Note) (now : Time) (id : Nat)
    (h : mapGet st.alertTriggered id = true) :
    mapGet (evalNote st note now).alertTriggered id = true ∧
      pushesFor id (evalNote st note now) = pushesFor id st := by
  rcases evalNote_cases st note now with he | ⟨hfresh, msg, he⟩
  · rw [he]
    exact ⟨h, rfl⟩
  · have hne : note.ID ≠ id := by
      intro heq
      rw [heq, h] at hfresh
      exact Bool.noConfusion hfresh
    rw [he]
    refine ⟨?_, pushesFor_append_ne st _ id note.ID msg hne⟩
    show mapGet (mapSet st.alertTriggered note.ID true) id = true
    rw [mapGet_mapSet_ne _ _ _ _ (Ne.symm hne)]
    exact h

theorem runEvals_keeps_fired (evs : List (Note × Time)) (st : AlarmState) (id : Nat)
    (h : mapGet st.alertTriggered id = true) :
    mapGet (runEvals st evs).alertTriggered id = true ∧
      pushesFor id (runEvals st evs) = pushesFor id st := by
  induction evs generalizing st with
  | nil => exact ⟨h, rfl⟩
  | cons e evs ih =>
    have hstep := evalNote_keeps_fired st e.1 e.2 id h
    have hrest := ih (evalNote st e.1 e.2) hstep.1
    exact ⟨hrest.1, hrest.2.trans hstep.2⟩

theorem runEvals_append (st : AlarmState) (pre post : List (Note × Time)) :
    runEvals st (pre ++ post) = runEvals (runEvals st pre) post := by
  simp [runEvals, List.foldl_append]

theorem DedupInv_init : DedupInv initState := by
  intro id
  exact ⟨fun _ => rfl, Nat.zero_le _⟩

theorem DedupInv_evalNote (st : AlarmState) (note : Note) (now : Time)
    (hinv : DedupInv st) : DedupInv (evalNote st note now) := by
  rcases evalNote_cases st note now with he | ⟨hfresh, msg, he⟩
  · rw [he]
    exact hinv
  · rw [he]
    intro id
    by_cases hid : note.ID = id
    · subst hid
      rw [pushesFor_append_self, (hinv note.ID).1 hfresh]
      refine ⟨?_, by simp⟩
      intro hget
      have hset : mapGet (mapSet st.alertTriggered note.ID true) note.ID = true :=
        mapGet_mapSet_self _ _ _
      have hget' : mapGet (mapSet st.alertTriggered note.ID true) note.ID = false := hget
      rw [hset] at hget'
      exact Bool.noConfusion hget'
    · rw [pushesFor_append_ne st _ id note.ID msg hid]
      refine ⟨?_, (hinv id).2⟩
      intro hget
      have hget' : mapGet (mapSet st.alertTriggered note.ID true) id = false := hget
      rw [mapGet_mapSet_ne _ _ _ _ (Ne.symm hid)] at hget'
      exact (hinv id).1 hget'

theorem DedupInv_runEvals (evs : List (Note × Time)) (st : AlarmState)
    (hinv : DedupInv st) : DedupInv (runEvals st evs) := by
  induction evs generalizing st with
  | nil => exact hinv
  | cons e evs ih => exact ih (evalNote st e.1 e.2) (DedupInv_evalNote st e.1 e.2 hinv)

/-- A deadline at most 24 hours after the current time selects one of the five cases. -/
theorem selectedTier_ne_None (deadline now : Time)
    (h : deadline.ns - now.ns ≤ 24 * Hour) :
    selectedTier deadline now ≠ AlertTier.None := by
  rw [selectedTier_eq_classifySeconds]
  simp only [Hour_eq] at h
  delta Duration at h
  simp only [classifySeconds, Time.unixFloor]
  by_cases h0 : deadline.ns / 1000000000 - now.ns / 1000000000 ≤ 0
  · rw [if_pos h0]
    exact fun hc => AlertTier.noConfusion hc
  · rw [if_neg h0]
    by_cases h1 : deadline.ns / 1000000000 - now.ns / 1000000000 ≤ 30 * 60
    · rw [if_pos h1]
      exact fun hc => AlertTier.noConfusion hc
    · rw [if_neg h1]
      by_cases h2 : deadline.ns / 1000000000 - now.ns / 1000000000 ≤ 60 * 60
      · rw [if_pos h2]
        exact fun hc => AlertTier.noConfusion hc
      · rw [if_neg h2]
        by_cases h3 : deadline.ns / 1000000000 - now.ns / 1000000000 ≤ 6 * 60 * 60
        · rw [if_pos h3]
          exact fun hc => AlertTier.noConfusion hc
        · rw [if_neg h3, if_pos (by omega)]
          exact fun hc => AlertTier.noConfusion hc

/-- More than 24 hours left after truncation, or at least 24 hours and one second before
it, selects no case. -/
theorem selectedTier_eq_None (deadline now : Time)
    (h : 24 * Hour < remainingTime deadline now ∨
      24 * Hour + Second ≤ deadline.ns - now.ns) :
    selectedTier deadline now = AlertTier.None := by
  have hk : 24 * 60 * 60 < deadline.unixFloor - now.unixFloor := by
    rcases h with h | h
    · rw [remainingTime_eq] at h
      simp only [Hour_eq] at h
      delta Duration at h
      split_ifs at h <;> omega
    · simp only [Hour_eq, Second_eq] at h
      delta Duration at h
      simp only [Time.unixFloor]
      omega
  rw [selectedTier_eq_classifySeconds]
  simp only [classifySeconds]
  rw [if_neg (by omega), if_neg (by omega), if_neg (by omega), if_neg (by omega),
    if_neg (by omega)]

theorem SetAlarmForNotes_nil (st : AlarmState) (order : List Nat) (clock : Nat → Time) :
    SetAlarmForNotes st [] order clock = st := by
  unfold SetAlarmForNotes
  induction order with
  | nil => rfl
  | cons i order ih => simp [ih]

/-! ## At most one notification per identity (C1) -/

/-- C1: from the empty map, after any sequence of evaluations (any notes, deadlines,
titles and clock values, any order) every identity has at most one notification; and
once an identity has a notification, the evaluations that follow add none for it,
whatever their deadlines are. -/
theorem C1_at_most_one_notification (evs : List (Note × Time)) (id : Nat) :
    (pushesFor id (runEvals initState evs)).length ≤ 1 ∧
      ∀ pre post : List (Note × Time), evs = pre ++ post →
        pushesFor id (runEvals initState pre) ≠ [] →
        pushesFor id (runEvals initState evs) = pushesFor id (runEvals initState pre) := by
  refine ⟨(DedupInv_runEvals evs initState DedupInv_init id).2, ?_⟩
  intro pre post hsplit hfired
  have hflag : mapGet (runEvals initState pre).alertTriggered id = true := by
    cases hg : mapGet (runEvals initState pre).alertTriggered id with
    | true => rfl
    | false => exact absurd ((DedupInv_runEvals pre initState DedupInv_init id).1 hg) hfired
  rw [hsplit, runEvals_append]
  exact (runEvals_keeps_fired post (runEvals initState pre) id hflag).2

theorem C1_at_most_one_notification_witness :
    pushesFor 3
        (runEvals initState
          [(⟨3, "a", "", ⟨1500000000000⟩, ⟨0⟩, ⟨0⟩⟩, ⟨0⟩),
            (⟨3, "a", "", ⟨1500000000000⟩, ⟨0⟩, ⟨0⟩⟩, ⟨1600000000000⟩)]) =
      pushesFor 3
        (runEvals initState [(⟨3, "a", "", ⟨1500000000000⟩, ⟨0⟩, ⟨0⟩⟩, ⟨0⟩)]) :=
  (C1_at_most_one_notification
      [(⟨3, "a", "", ⟨1500000000000⟩, ⟨0⟩, ⟨0⟩⟩, ⟨0⟩),
        (⟨3, "a", "", ⟨1500000000000⟩, ⟨0⟩, ⟨0⟩⟩, ⟨1600000000000⟩)] 3).2
    [(⟨3, "a", "", ⟨1500000000000⟩, ⟨0⟩, ⟨0⟩⟩, ⟨0⟩)]
    [(⟨3, "a", "", ⟨1500000000000⟩, ⟨0⟩, ⟨0⟩⟩, ⟨1600000000000⟩)] rfl (by decide)

/-! ## One evaluation (C6, C7) -/

/-- C6: a note whose identity has not fired and whose deadline is at most 24 hours after
the current time gets exactly one notification from one evaluation, and its flag is
true afterwards. -/
theorem C6_fresh_note_in_window_fires (st : AlarmState) (note : Note) (now : Time)
    (hfresh : mapGet st.alertTriggered note.ID = false)
    (hwin : note.Deadline.ns - now.ns ≤ 24 * Hour) :
    (∃ msg, (evalNote st note now).pushed = st.pushed ++ [⟨note.ID, msg⟩]) ∧
      mapGet (evalNote st note now).alertTriggered note.ID = true := by
  rw [evalNote_fresh st note now hfresh]
  obtain ⟨msg, hmsg⟩ :=
    caseBody_fires st note _ (selectedTier_ne_None note.Deadline now hwin)
  rw [hmsg]
  exact ⟨⟨msg, rfl⟩, mapGet_mapSet_self _ _ _⟩

theorem C6_fresh_note_in_window_fires_witness :
    (∃ msg,
        (evalNote initState
            ⟨0, "Test Note", "", (⟨63800000000123456789⟩ : Time).Add (30 * Minute), ⟨0⟩, ⟨0⟩⟩
            ⟨63800000000123456789⟩).pushed =
          initState.pushed ++ [⟨0, msg⟩]) ∧
      mapGet
          (evalNote initState
            ⟨0, "Test Note", "", (⟨63800000000123456789⟩ : Time).Add (30 * Minute), ⟨0⟩, ⟨0⟩⟩
            ⟨63800000000123456789⟩).alertTriggered 0 =
        true :=
  C6_fresh_note_in_window_fires initState
    ⟨0, "Test Note", "", (⟨63800000000123456789⟩ : Time).Add (30 * Minute), ⟨0⟩, ⟨0⟩⟩
    ⟨63800000000123456789⟩ (by decide) (by decide)

/-- C7: when more than 24 hours remain (the truncated difference exceeds 24 hours, as it
does from 24 hours and one second upward) the evaluation pushes nothing and leaves the
map as it was; a later evaluation of the same identity, not fired before, with at most
24 hours left then pushes exactly one notification. -/
theorem C7_none_tier_leaves_state (st : AlarmState) (note : Note) (now : Time)
    (hfar : 24 * Hour < remainingTime note.Deadline now ∨
      24 * Hour + Second ≤ note.Deadline.ns - now.ns) :
    evalNote st note now = st ∧
      ∀ (later : Note) (now2 : Time), later.ID = note.ID →
        mapGet st.alertTriggered note.ID = false →
        later.Deadline.ns - now2.ns ≤ 24 * Hour →
        ∃ msg, (evalNote (evalNote st note now) later now2).pushed =
          st.pushed ++ [⟨note.ID, msg⟩] := by
  have hsame : evalNote st note now = st := by
    cases hf : mapGet st.alertTriggered note.ID with
    | true => exact evalNote_fired st note now hf
    | false =>
      rw [evalNote_fresh st note now hf, selectedTier_eq_None note.Deadline now hfar]
      rfl
  refine ⟨hsame, ?_⟩
  intro later now2 hid hfresh hwin
  rw [hsame]
  have hfresh2 : mapGet st.alertTriggered later.ID = false := by rw [hid]; exact hfresh
  rw [evalNote_fresh st later now2 hfresh2]
  obtain ⟨msg, hmsg⟩ :=
    caseBody_fires st later _ (selectedTier_ne_None later.Deadline now2 hwin)
  rw [hmsg, hid]
  exact ⟨msg, rfl⟩

theorem C7_none_tier_leaves_state_witness :
    evalNote ⟨[(1, true)], [⟨1, "x"⟩]⟩ ⟨2, "b", "", ⟨86401000000000⟩, ⟨0⟩, ⟨0⟩⟩ ⟨0⟩ =
      ⟨[(1, true)], [⟨1, "x"⟩]⟩ :=
  (C7_none_tier_leaves_state ⟨[(1, true)], [⟨1, "x"⟩]⟩
    ⟨2, "b", "", ⟨86401000000000⟩, ⟨0⟩, ⟨0⟩⟩ ⟨0⟩ (Or.inl (by decide))).1

/-! ## Messages (C8, C9) -/

/-- C8 on the code: for a note titled `Test Note` that has not fired, with exactly
30 minutes, 1 hour, 6 hours and 24 hours left, the message handed to the notifier is the
template followed by a line feed, which is not the template text. -/
theorem C8_tier_messages_end_with_line_feed :
    (evalNote initState ⟨0, "Test Note", "", ⟨1800000000000⟩, ⟨0⟩, ⟨0⟩⟩ ⟨0⟩).pushed =
        [⟨0, "ALERT: Note 'Test Note' has 30 minutes remaining.\n"⟩] ∧
      (evalNote initState ⟨0, "Test Note", "", ⟨3600000000000⟩, ⟨0⟩, ⟨0⟩⟩ ⟨0⟩).pushed =
        [⟨0, "ALERT: Note 'Test Note' has 1 hour remaining.\n"⟩] ∧
      (evalNote initState ⟨0, "Test Note", "", ⟨21600000000000⟩, ⟨0⟩, ⟨0⟩⟩ ⟨0⟩).pushed =
        [⟨0, "ALERT: Note 'Test Note' has 6 hours remaining.\n"⟩] ∧
      (evalNote initState ⟨0, "Test Note", "", ⟨86400000000000⟩, ⟨0⟩, ⟨0⟩⟩ ⟨0⟩).pushed =
        [⟨0, "ALERT: Note 'Test Note' has 1 day remaining.\n"⟩] ∧
      (evalNote initState ⟨0, "Test Note", "", ⟨1800000000000⟩, ⟨0⟩, ⟨0⟩⟩ ⟨0⟩).pushed ≠
        [⟨0, "ALERT: Note 'Test Note' has 30 minutes remaining."⟩] := by
  decide

/-- C9: the evaluation of a note that has not fired, with no time remaining, hands the
notifier exactly the overdue template with the title of the note in it. -/
theorem C9_overdue_message (st : AlarmState) (note : Note) (now : Time)
    (hfresh : mapGet st.alertTriggered note.ID = false)
    (hdue : remainingTime note.Deadline now ≤ 0) :
    (evalNote st note now).pushed =
      st.pushed ++ [⟨note.ID, "ALERT: Note '" ++ note.Title ++ "' is overdue!"⟩] := by
  have ht : switchCase (remainingTime note.Deadline now) = AlertTier.Overdue := by
    rw [switchCase, if_pos hdue]
  simp [evalNote, hfresh, ht, caseBody, markTriggered, displayNotification]

theorem C9_overdue_message_witness :
    (evalNote initState ⟨4, "Pay rent", "", ⟨10500000000⟩, ⟨0⟩, ⟨0⟩⟩ ⟨10900000000⟩).pushed =
      initState.pushed ++ [⟨4, "ALERT: Note '" ++ "Pay rent" ++ "' is overdue!"⟩] :=
  C9_overdue_message initState ⟨4, "Pay rent", "", ⟨10500000000⟩, ⟨0⟩, ⟨0⟩⟩ ⟨10900000000⟩
    (by decide) (by decide)

/-! ## A failed fetch (C10) -/

/-- C10: when the repository reports an error, `GetAllNotes` returns no notes, the
iteration of the background loop starts no evaluation (the state is what it was: no
notification, no flag changed), and the loop goes on with the iterations that follow. -/
theorem C10_failed_fetch_dispatches_nothing (st : AlarmState) (t : TickInput)
    (rest : List TickInput) (e : String) (herr : t.repoResult.2 = some e) :
    GetAllNotes t.repoResult = ([], some "failed to get all notes") ∧
      mainTick st t = st ∧
      backgroundLoop st (t :: rest) = backgroundLoop st rest := by
  have hget : GetAllNotes t.repoResult = ([], some "failed to get all notes") := by
    simp [GetAllNotes, herr]
  have htick : mainTick st t = st := by
    simp only [mainTick, hget]
    exact SetAlarmForNotes_nil st t.order t.clock
  refine ⟨hget, htick, ?_⟩
  simp [backgroundLoop, List.foldl_cons, htick]

theorem C10_failed_fetch_dispatches_nothing_witness :
    mainTick initState
        ⟨([⟨1, "a", "", ⟨0⟩, ⟨0⟩, ⟨0⟩⟩], some "connection refused"), [0], fun _ => ⟨5⟩⟩ =
      initState :=
  (C10_failed_fetch_dispatches_nothing initState
    ⟨([⟨1, "a", "", ⟨0⟩, ⟨0⟩, ⟨0⟩⟩], some "connection refused"), [0], fun _ => ⟨5⟩⟩ []
    "connection refused" rfl).2.1

/-! ## Effects of one evaluation in program order (C11, C12, C14) -/

theorem caseBody_eq_caseMessage (st : AlarmState) (note : Note) (t : AlertTier) :
    caseBody st note t =
      (match caseMessage note.Title t with
      | some msg => markTriggered (displayNotification st note.ID msg) note.ID
      | none => st) := by
  cases t <;> rfl

theorem caseMessage_of_ne_None (title : String) (t : AlertTier) (ht : t ≠ AlertTier.None) :
    ∃ msg, caseMessage title t = some msg := by
  cases t with
  | None => exact absurd rfl ht
  | Overdue => exact ⟨_, rfl⟩
  | ThirtyMinutes => exact ⟨_, rfl⟩
  | OneHour => exact ⟨_, rfl⟩
  | SixHours => exact ⟨_, rfl⟩
  | OneDay => exact ⟨_, rfl⟩

/-- Running the effects of the goroutine body on the state gives the state of
`evalNote`. -/
theorem applyEffects_evalNoteTrace (st : AlarmState) (note : Note) (now : Time) :
    applyEffects st (evalNoteTrace st note now) = evalNote st note now := by
  unfold evalNoteTrace evalNote
  cases hf : mapGet st.alertTriggered note.ID with
  | true => rfl
  | false =>
    simp only [Bool.false_eq_true, if_false]
    rw [caseBody_eq_caseMessage, caseTrace]
    cases caseMessage note.Title (switchCase (remainingTime note.Deadline now)) with
    | none => rfl
    | some msg => rfl

/-- The trace of an evaluation that alerts. -/
theorem evalNoteTrace_alert (st : AlarmState) (note : Note) (now : Time)
    (hfresh : mapGet st.alertTriggered note.ID = false)
    (halert : selectedTier note.Deadline now ≠ AlertTier.None) :
    ∃ msg, evalNoteTrace st note now =
      [Effect.lock, Effect.readFlag note.ID, Effect.push note.ID msg,
        Effect.setFlag note.ID, Effect.unlock] := by
  obtain ⟨msg, hmsg⟩ := caseMessage_of_ne_None note.Title _ halert
  refine ⟨msg, ?_⟩
  rw [selectedTier] at hmsg
  simp [evalNoteTrace, hfresh, caseTrace, hmsg]

/-- The trace of an evaluation that does not alert. -/
theorem evalNoteTrace_quiet (st : AlarmState) (note : Note) (now : Time)
    (h : mapGet st.alertTriggered note.ID = true ∨
      selectedTier note.Deadline now = AlertTier.None) :
    evalNoteTrace st note now = [Effect.lock, Effect.readFlag note.ID, Effect.unlock] := by
  cases hf : mapGet st.alertTriggered note.ID with
  | true => simp [evalNoteTrace, hf]
  | false =>
    rcases h with h | h
    · rw [hf] at h
      exact Bool.noConfusion h
    · rw [selectedTier] at h
      simp [evalNoteTrace, hf, caseTrace, h, caseMessage]

/-- C11, as stated, fails: the evaluation of a note that has not fired, 30 minutes before
its deadline, calls `displayNotification` before it writes the flag. -/
theorem C11_counterexample :
    ¬ ∀ (st : AlarmState) (note : Note) (now : Time),
        mapGet st.alertTriggered note.ID = false →
        selectedTier note.Deadline now ≠ AlertTier.None →
        flagSetBeforePush (evalNoteTrace st note now) = true := by
  intro h
  have h1 := h initState ⟨0, "Test Note", "", ⟨1800000000000⟩, ⟨0⟩, ⟨0⟩⟩ ⟨0⟩ (by decide)
    (by decide)
  revert h1
  decide

/-- C11, amended: in every evaluation that alerts, `displayNotification` is called first
and the flag of the note is written after it, both between `Lock` and `Unlock`; at the
time of the call the flag is still unset. -/
theorem C11_push_precedes_flag_write (st : AlarmState) (note : Note) (now : Time)
    (hfresh : mapGet st.alertTriggered note.ID = false)
    (halert : selectedTier note.Deadline now ≠ AlertTier.None) :
    (∃ msg, evalNoteTrace st note now =
        [Effect.lock, Effect.readFlag note.ID, Effect.push note.ID msg,
          Effect.setFlag note.ID, Effect.unlock]) ∧
      flagSetBeforePush (evalNoteTrace st note now) = false ∧
      applyEffects st (evalNoteTrace st note now) = evalNote st note now := by
  obtain ⟨msg, hmsg⟩ := evalNoteTrace_alert st note now hfresh halert
  refine ⟨⟨msg, hmsg⟩, ?_, applyEffects_evalNoteTrace st note now⟩
  rw [hmsg]
  simp [flagSetBeforePush, flagSetBeforePushFrom]

theorem C11_push_precedes_flag_write_witness :
    flagSetBeforePush
        (evalNoteTrace initState ⟨0, "Test Note", "", ⟨1800000000000⟩, ⟨0⟩, ⟨0⟩⟩ ⟨0⟩) =
      false :=
  (C11_push_precedes_flag_write initState ⟨0, "Test Note", "", ⟨1800000000000⟩, ⟨0⟩, ⟨0⟩⟩ ⟨0⟩
    (by decide) (by decide)).2.1

/-- C12, as stated, fails: in the evaluation of a note that has not fired, 30 minutes
before its deadline, `displayNotification` is called while the lock is held. -/
theorem C12_counterexample :
    ¬ ∀ (st : AlarmState) (note : Note) (now : Time),
        pushesOutsideLock (evalNoteTrace st note now) = true := by
  intro h
  have h1 := h initState ⟨0, "Test Note", "", ⟨1800000000000⟩, ⟨0⟩, ⟨0⟩⟩ ⟨0⟩
  revert h1
  decide

/-- C12, amended: every evaluation takes the lock first and releases it last, by the
deferred `Unlock`; the read of the flag, the call of `displayNotification` and the write
of the flag all happen while the lock is held. -/
theorem C12_notifier_called_under_lock (st : AlarmState) (note : Note) (now : Time) :
    effectsUnderLock (evalNoteTrace st note now) = true ∧
      ∃ mid, evalNoteTrace st note now = Effect.lock :: mid ++ [Effect.unlock] ∧
        Effect.lock ∉ mid ∧ Effect.unlock ∉ mid := by
  by_cases h : mapGet st.alertTriggered note.ID = false ∧
      selectedTier note.Deadline now ≠ AlertTier.None
  · obtain ⟨msg, hmsg⟩ := evalNoteTrace_alert st note now h.1 h.2
    rw [hmsg]
    refine ⟨by simp [effectsUnderLock, effectsUnderLockFrom],
      [Effect.readFlag note.ID, Effect.push note.ID msg, Effect.setFlag note.ID], rfl, ?_, ?_⟩
    · simp
    · simp
  · have hq : mapGet st.alertTriggered note.ID = true ∨
        selectedTier note.Deadline now = AlertTier.None := by
      by_cases hf : mapGet st.alertTriggered note.ID = true
      · exact Or.inl hf
      · right
        by_contra hne
        exact h ⟨by simpa using hf, hne⟩
    rw [evalNoteTrace_quiet st note now hq]
    refine ⟨by simp [effectsUnderLock, effectsUnderLockFrom],
      [Effect.readFlag note.ID], rfl, ?_, ?_⟩
    · simp
    · simp

theorem evalNoteVia_fst (deliver : String → Option String) (st : AlarmState) (note : Note)
    (now : Time) : (evalNoteVia deliver st note now).1 = evalNote st note now := by
  unfold evalNoteVia evalNote
  cases hf : mapGet st.alertTriggered note.ID with
  | true => rfl
  | false =>
    simp only [Bool.false_eq_true, if_false]
    rw [caseBody_eq_caseMessage]
    cases caseMessage note.Title (switchCase (remainingTime note.Deadline now)) with
    | none => rfl
    | some msg => rfl

theorem runEvalsVia_eq (deliver : String → Option String) (evs : List (Note × Time))
    (st : AlarmState) : runEvalsVia deliver st evs = runEvals st evs := by
  induction evs generalizing st with
  | nil => rfl
  | cons e evs ih =>
    simp only [runEvalsVia, runEvals, List.foldl_cons]
    rw [evalNoteVia_fst]
    exact ih (evalNote st e.1 e.2)

/-- C14: whatever `notifier.Push` returns, error or not, the state after an evaluation is
the same; if delivery was attempted the flag of the note is true afterwards; and
the evaluations that follow give the same state. -/
theorem C14_delivery_failure_changes_nothing (d1 d2 : String → Option String)
    (st : AlarmState) (note : Note) (now : Time) (evs : List (Note × Time)) :
    (evalNoteVia d1 st note now).1 = (evalNoteVia d2 st note now).1 ∧
      ((evalNoteVia d1 st note now).2 ≠ [] →
        mapGet (evalNoteVia d1 st note now).1.alertTriggered note.ID = true) ∧
      runEvalsVia d1 (evalNoteVia d1 st note now).1 evs =
        runEvalsVia d2 (evalNoteVia d2 st note now).1 evs := by
  refine ⟨by rw [evalNoteVia_fst, evalNoteVia_fst], ?_, ?_⟩
  · intro hatt
    unfold evalNoteVia at hatt ⊢
    cases hf : mapGet st.alertTriggered note.ID with
    | true => simp [hf] at hatt
    | false =>
      simp only [hf, Bool.false_eq_true, if_false] at hatt ⊢
      cases hm : caseMessage note.Title (switchCase (remainingTime note.Deadline now)) with
      | none => simp [hm] at hatt
      | some msg => exact mapGet_mapSet_self _ _ _
  · rw [runEvalsVia_eq, runEvalsVia_eq, evalNoteVia_fst, evalNoteVia_fst]

theorem C14_delivery_failure_changes_nothing_witness :
    (evalNoteVia (fun _ => some "exit status 1") initState
        ⟨0, "Test Note", "", ⟨1800000000000⟩, ⟨0⟩, ⟨0⟩⟩ ⟨0⟩).1 =
      (evalNoteVia (fun _ => none) initState
        ⟨0, "Test Note", "", ⟨1800000000000⟩, ⟨0⟩, ⟨0⟩⟩ ⟨0⟩).1 :=
  (C14_delivery_failure_changes_nothing (fun _ => some "exit status 1") (fun _ => none)
    initState ⟨0, "Test Note", "", ⟨1800000000000⟩, ⟨0⟩, ⟨0⟩⟩ ⟨0⟩ []).1

/-! ## Runs of evaluations (C13, C16) -/

theorem SetAlarmForNotes_eq_runEvals (notes : List Note) (clock : Nat → Time)
    (order : List Nat) (st : AlarmState) :
    SetAlarmForNotes st notes order clock = runEvals st (scheduled notes order clock) := by
  induction order generalizing st with
  | nil => rfl
  | cons i order ih =>
    have hstep : SetAlarmForNotes st notes (i :: order) clock =
        SetAlarmForNotes
          (match notes.get? i with
          | some note => evalNote st note (clock i)
          | none => st) notes order clock := rfl
    rw [hstep]
    cases hi : notes.get? i with
    | none =>
      have hs : scheduled notes (i :: order) clock = scheduled notes order clock := by
        simp only [scheduled, List.filterMap_cons, hi, Option.map]
      rw [hs]
      exact ih st
    | some note =>
      have hs : scheduled notes (i :: order) clock =
          (note, clock i) :: scheduled notes order clock := by
        simp only [scheduled, List.filterMap_cons, hi, Option.map]
      rw [hs]
      exact ih (evalNote st note (clock i))

theorem SetAlarmForNotes_keeps_fired (st : AlarmState) (notes : List Note)
    (order : List Nat) (clock : Nat → Time) (id : Nat)
    (h : mapGet st.alertTriggered id = true) :
    mapGet (SetAlarmForNotes st notes order clock).alertTriggered id = true := by
  rw [SetAlarmForNotes_eq_runEvals]
  exact (runEvals_keeps_fired _ st id h).1

theorem applyOp_keeps_fired (st : AlarmState) (op : Op) (id : Nat)
    (h : mapGet st.alertTriggered id = true) :
    mapGet (applyOp st op).alertTriggered id = true := by
  cases op with
  | tick t => exact SetAlarmForNotes_keeps_fired st _ _ _ id h
  | create note env clock => exact SetAlarmForNotes_keeps_fired st _ _ _ id h
  | update note env clock => exact SetAlarmForNotes_keeps_fired st _ _ _ id h
  | delete i deleted => exact h

/-- C13: once the flag of an identity is true it stays true through every sequence of
operations of the program (iterations of the background loop on any snapshot, creates,
updates with any deadline, deletes) and through every sequence of evaluations, in any
order: no operation writes `false` or removes an entry. -/
theorem C13_fired_flag_never_reset (st : AlarmState) (id : Nat)
    (h : mapGet st.alertTriggered id = true) (ops : List Op) (evs : List (Note × Time)) :
    mapGet (runOps st ops).alertTriggered id = true ∧
      mapGet (runEvals st evs).alertTriggered id = true := by
  refine ⟨?_, (runEvals_keeps_fired evs st id h).1⟩
  induction ops generalizing st with
  | nil => exact h
  | cons op ops ih => exact ih (applyOp st op) (applyOp_keeps_fired st op id h)

theorem C13_fired_flag_never_reset_witness :
    mapGet
        (runOps ⟨[(7, true)], [⟨7, "x"⟩]⟩
          [Op.update ⟨7, "Pay rent", "", ⟨0⟩, ⟨0⟩, ⟨0⟩⟩
              ⟨(some ⟨7, "Pay rent", "", ⟨0⟩, ⟨0⟩, ⟨0⟩⟩, none), none,
                Except.ok ⟨900000000000000⟩, ⟨5⟩, none⟩ ⟨6⟩,
            Op.delete 7 none]).alertTriggered 7 =
      true :=
  (C13_fired_flag_never_reset ⟨[(7, true)], [⟨7, "x"⟩]⟩ 7 (by decide)
    [Op.update ⟨7, "Pay rent", "", ⟨0⟩, ⟨0⟩, ⟨0⟩⟩
        ⟨(some ⟨7, "Pay rent", "", ⟨0⟩, ⟨0⟩, ⟨0⟩⟩, none), none,
          Except.ok ⟨900000000000000⟩, ⟨5⟩, none⟩ ⟨6⟩,
      Op.delete 7 none] []).1

/-- After the flag of `id` is set, evaluations of notes with that identity all read
`true` and leave the state as it is. -/
theorem observedFlags_fired (id : Nat) (evs : List (Note × Time)) (st : AlarmState)
    (h : mapGet st.alertTriggered id = true) (hall : ∀ e ∈ evs, e.1.ID = id) :
    observedFlags st evs = List.replicate evs.length true ∧ runEvals st evs = st := by
  induction evs with
  | nil => exact ⟨rfl, rfl⟩
  | cons e evs ih =>
    have he : e.1.ID = id := hall e (List.mem_cons_self _ _)
    have hf : mapGet st.alertTriggered e.1.ID = true := by rw [he]; exact h
    have hstep : evalNote st e.1 e.2 = st := evalNote_fired st e.1 e.2 hf
    have hrest := ih (fun e' he' => hall e' (List.mem_cons_of_mem _ he'))
    refine ⟨?_, ?_⟩
    · simp only [observedFlags, hstep, hf, hrest.1, List.length_cons, List.replicate_succ]
    · simp only [runEvals, List.foldl_cons, hstep]
      exact hrest.2

/-- C16: when any number N >= 1 of evaluations of one identity that has not fired, each
with a tier other than `None`, run in any order of their critical sections, the first
reads the flag as `false` and notifies, the other N - 1 read `true`, and exactly one
notification is pushed. -/
theorem C16_one_of_n_notifies (st : AlarmState) (id : Nat) (evs : List (Note × Time))
    (hne : evs ≠ []) (hfresh : mapGet st.alertTriggered id = false)
    (hall : ∀ e ∈ evs, e.1.ID = id ∧ selectedTier e.1.Deadline e.2 ≠ AlertTier.None) :
    observedFlags st evs = false :: List.replicate (evs.length - 1) true ∧
      ∃ msg, (runEvals st evs).pushed = st.pushed ++ [⟨id, msg⟩] := by
  cases evs with
  | nil => exact absurd rfl hne
  | cons e es =>
    obtain ⟨he, ht⟩ := hall e (List.mem_cons_self _ _)
    have hf : mapGet st.alertTriggered e.1.ID = false := by rw [he]; exact hfresh
    obtain ⟨msg, hmsg⟩ := caseBody_fires st e.1 _ ht
    have hstep : evalNote st e.1 e.2 =
        ⟨mapSet st.alertTriggered e.1.ID true, st.pushed ++ [⟨e.1.ID, msg⟩]⟩ := by
      rw [evalNote_fresh st e.1 e.2 hf, hmsg]
    have hset : mapGet (evalNote st e.1 e.2).alertTriggered id = true := by
      rw [hstep, he]
      exact mapGet_mapSet_self _ _ _
    have hrest := observedFlags_fired id es (evalNote st e.1 e.2) hset
      (fun e' he' => (hall e' (List.mem_cons_of_mem _ he')).1)
    refine ⟨?_, msg, ?_⟩
    · simp only [observedFlags, hf, hrest.1, List.length_cons, Nat.add_sub_cancel]
    · simp only [runEvals, List.foldl_cons]
      have h2 := hrest.2
      simp only [runEvals] at h2
      rw [h2, hstep, he]

theorem C16_one_of_n_notifies_witness :
    observedFlags initState
        [(⟨3, "a", "", ⟨1500000000000⟩, ⟨0⟩, ⟨0⟩⟩, ⟨0⟩),
          (⟨3, "a", "", ⟨1500000000000⟩, ⟨0⟩, ⟨0⟩⟩, ⟨1000000000⟩),
          (⟨3, "a", "", ⟨1500000000000⟩, ⟨0⟩, ⟨0⟩⟩, ⟨2000000000⟩)] =
      false :: List.replicate (3 - 1) true :=
  (C16_one_of_n_notifies initState 3
    [(⟨3, "a", "", ⟨1500000000000⟩, ⟨0⟩, ⟨0⟩⟩, ⟨0⟩),
      (⟨3, "a", "", ⟨1500000000000⟩, ⟨0⟩, ⟨0⟩⟩, ⟨1000000000⟩),
      (⟨3, "a", "", ⟨1500000000000⟩, ⟨0⟩, ⟨0⟩⟩, ⟨2000000000⟩)]
    (by decide) (by decide) (by decide)).1

/-! ## Tier selection is monotone (C20) -/

theorem urgency_classifySeconds_antitone (k1 k2 : Int) (h : k1 ≤ k2) :
    urgency (classifySeconds k2) ≤ urgency (classifySeconds k1) := by
  simp only [classifySeconds]
  split_ifs <;> simp only [urgency] <;> omega

/-- C20: for a fixed deadline a later current time never selects a less urgent tier, and
for a fixed current time an earlier deadline never selects a less urgent tier, in the
order None < OneDay < SixHours < OneHour < ThirtyMinutes < Overdue. -/
theorem C20_tier_monotone (deadline now : Time) (other : Time) :
    (now.ns ≤ other.ns →
        urgency (selectedTier deadline now) ≤ urgency (selectedTier deadline other)) ∧
      (other.ns ≤ deadline.ns →
        urgency (selectedTier deadline now) ≤ urgency (selectedTier other now)) := by
  simp only [selectedTier_eq_classifySeconds]
  constructor
  · intro h
    apply urgency_classifySeconds_antitone
    simp only [Time.unixFloor]
    omega
  · intro h
    apply urgency_classifySeconds_antitone
    simp only [Time.unixFloor]
    omega

theorem C20_tier_monotone_witness :
    urgency (selectedTier ⟨7200500000000⟩ ⟨100000000⟩) ≤
      urgency (selectedTier ⟨7200500000000⟩ ⟨5400900000000⟩) :=
  (C20_tier_monotone ⟨7200500000000⟩ ⟨100000000⟩ ⟨5400900000000⟩).1 (by decide)

/-! ## One iteration over a snapshot (C15, C19) -/

theorem switchCase_ne_None_iff (r : Duration) :
    switchCase r ≠ AlertTier.None ↔ r ≤ 24 * Hour := by
  simp only [switchCase, Minute_eq, Hour_eq]
  delta Duration at r ⊢
  constructor
  · intro h
    by_contra hr
    apply h
    rw [if_neg (by omega), if_neg (by omega), if_neg (by omega), if_neg (by omega),
      if_neg (by omega)]
  · intro hr
    split_ifs
    · exact fun hc => AlertTier.noConfusion hc
    · exact fun hc => AlertTier.noConfusion hc
    · exact fun hc => AlertTier.noConfusion hc
    · exact fun hc => AlertTier.noConfusion hc
    · exact fun hc => AlertTier.noConfusion hc

theorem selectedTier_ne_None_iff (deadline now : Time) :
    selectedTier deadline now ≠ AlertTier.None ↔ remainingTime deadline now ≤ 24 * Hour :=
  switchCase_ne_None_iff _

/-- An evaluation that finds the flag set, or no case of the `switch`, changes nothing. -/
theorem evalNote_quiet (st : AlarmState) (note : Note) (now : Time)
    (h : ¬ (mapGet st.alertTriggered note.ID = false ∧
      selectedTier note.Deadline now ≠ AlertTier.None)) : evalNote st note now = st := by
  cases hf : mapGet st.alertTriggered note.ID with
  | true => exact evalNote_fired st note now hf
  | false =>
    have ht : selectedTier note.Deadline now = AlertTier.None := by
      by_contra hne
      exact h ⟨hf, hne⟩
    rw [evalNote_fresh st note now hf, ht]
    rfl

/-- An evaluation of a note that has not fired, inside a tier window, pushes one message
and sets the flag. -/
theorem evalNote_loud (st : AlarmState) (note : Note) (now : Time)
    (hf : mapGet st.alertTriggered note.ID = false)
    (ht : selectedTier note.Deadline now ≠ AlertTier.None) :
    ∃ msg, evalNote st note now =
      ⟨mapSet st.alertTriggered note.ID true, st.pushed ++ [⟨note.ID, msg⟩]⟩ := by
  rw [evalNote_fresh st note now hf]
  exact caseBody_fires st note _ ht

theorem inWindow_of_get (notes : List Note) (clock : Nat → Time) (i : Nat) (note : Note)
    (hi : notes.get? i = some note) :
    inWindow notes clock i = true ↔
      selectedTier note.Deadline (clock i) ≠ AlertTier.None := by
  rw [selectedTier_ne_None_iff]
  simp only [inWindow, hi, decide_eq_true_eq]

theorem inWindow_of_none (notes : List Note) (clock : Nat → Time) (i : Nat)
    (hi : notes.get? i = none) : inWindow notes clock i = false := by
  simp only [inWindow, hi]

/-- The number of messages pushed by the goroutines `order`, when they are distinct, the
identities of the snapshot are distinct and none of them has fired. -/
theorem SetAlarmForNotes_pushed_length (notes : List Note) (clock : Nat → Time)
    (hinj : ∀ i j a b, notes.get? i = some a → notes.get? j = some b → a.ID = b.ID → i = j)
    (order : List Nat) (st : AlarmState) (hnd : order.Nodup)
    (hfresh : ∀ i ∈ order, ∀ a, notes.get? i = some a → mapGet st.alertTriggered a.ID = false) :
    (SetAlarmForNotes st notes order clock).pushed.length =
      st.pushed.length + order.countP (inWindow notes clock) := by
  induction order generalizing st with
  | nil => rfl
  | cons i order ih =>
    have hstep : SetAlarmForNotes st notes (i :: order) clock =
        SetAlarmForNotes
          (match notes.get? i with
          | some note => evalNote st note (clock i)
          | none => st) notes order clock := rfl
    have hnd' : order.Nodup := (List.nodup_cons.mp hnd).2
    have hni : i ∉ order := (List.nodup_cons.mp hnd).1
    have hfresh' : ∀ j ∈ order, ∀ a, notes.get? j = some a →
        mapGet st.alertTriggered a.ID = false :=
      fun j hj a ha => hfresh j (List.mem_cons_of_mem _ hj) a ha
    rw [hstep, List.countP_cons]
    cases hi : notes.get? i with
    | none =>
      rw [inWindow_of_none notes clock i hi]
      simpa using ih st hnd' hfresh'
    | some note =>
      have hf : mapGet st.alertTriggered note.ID = false :=
        hfresh i (List.mem_cons_self _ _) note hi
      by_cases ht : selectedTier note.Deadline (clock i) ≠ AlertTier.None
      · obtain ⟨msg, hmsg⟩ := evalNote_loud st note (clock i) hf ht
        have hw : inWindow notes clock i = true := (inWindow_of_get notes clock i note hi).2 ht
        have hrest := ih (evalNote st note (clock i)) hnd' (by
          intro j hj a ha
          have hne : a.ID ≠ note.ID := by
            intro heq
            have hji : j = i := hinj j i a note ha hi heq
            exact hni (hji ▸ hj)
          rw [hmsg]
          show mapGet (mapSet st.alertTriggered note.ID true) a.ID = false
          rw [mapGet_mapSet_ne _ _ _ _ hne]
          exact hfresh' j hj a ha)
        rw [hmsg] at hrest
        simp only [hmsg, hw, if_true]
        rw [hrest]
        simp only [List.length_append, List.length_singleton]
        omega
      · have hq : evalNote st note (clock i) = st := evalNote_quiet st note (clock i)
          (fun hc => ht hc.2)
        have hw : inWindow notes clock i = false := by
          cases hww : inWindow notes clock i with
          | false => rfl
          | true => exact absurd ((inWindow_of_get notes clock i note hi).1 hww) ht
        simp only [hq, hw]
        simpa using ih st hnd' hfresh'

theorem ids_distinct_of_nodup (notes : List Note) (hnd : (notes.map (fun n => n.ID)).Nodup)
    (i j : Nat) (a b : Note) (ha : notes.get? i = some a) (hb : notes.get? j = some b)
    (hab : a.ID = b.ID) : i = j := by
  have hi : i < (notes.map (fun n => n.ID)).length := by
    rw [List.length_map]
    exact (List.get?_eq_some.mp ha).1
  apply List.getElem?_inj hi hnd
  rw [List.get?_eq_getElem?] at ha hb
  simp [List.getElem?_map, ha, hb, hab]

/-- C15: on a snapshot with pairwise distinct identities none of which has fired, one run
of `SetAlarmForNotes`, in any order of its goroutines, pushes exactly as many
notifications as there are notes whose goroutine finds a `remainingTime` of at most
24 hours. -/
theorem C15_one_notification_per_note_in_window (st : AlarmState) (notes : List Note)
    (order : List Nat) (clock : Nat → Time)
    (hids : (notes.map (fun n => n.ID)).Nodup)
    (hfresh : ∀ n ∈ notes, mapGet st.alertTriggered n.ID = false)
    (horder : order.Perm (List.range notes.length)) :
    (SetAlarmForNotes st notes order clock).pushed.length =
      st.pushed.length + (List.range notes.length).countP (inWindow notes clock) := by
  rw [← List.Perm.countP_eq _ horder]
  apply SetAlarmForNotes_pushed_length notes clock (ids_distinct_of_nodup notes hids)
  · exact (List.Perm.nodup_iff horder).2 (List.nodup_range _)
  · intro i _ a ha
    exact hfresh a (List.get?_mem ha)

theorem C15_one_notification_per_note_in_window_witness :
    (SetAlarmForNotes initState
          [⟨1, "late", "", ⟨0⟩, ⟨0⟩, ⟨0⟩⟩, ⟨2, "far", "", ⟨864005000000000⟩, ⟨0⟩, ⟨0⟩⟩]
          [1, 0] (fun _ => ⟨5000000000⟩)).pushed.length =
        initState.pushed.length +
          (List.range
              [(⟨1, "late", "", ⟨0⟩, ⟨0⟩, ⟨0⟩⟩ : Note),
                ⟨2, "far", "", ⟨864005000000000⟩, ⟨0⟩, ⟨0⟩⟩].length).countP
            (inWindow [⟨1, "late", "", ⟨0⟩, ⟨0⟩, ⟨0⟩⟩, ⟨2, "far", "", ⟨864005000000000⟩, ⟨0⟩, ⟨0⟩⟩]
              (fun _ => ⟨5000000000⟩)) ∧
      initState.pushed.length +
          (List.range
              [(⟨1, "late", "", ⟨0⟩, ⟨0⟩, ⟨0⟩⟩ : Note),
                ⟨2, "far", "", ⟨864005000000000⟩, ⟨0⟩, ⟨0⟩⟩].length).countP
            (inWindow [⟨1, "late", "", ⟨0⟩, ⟨0⟩, ⟨0⟩⟩, ⟨2, "far", "", ⟨864005000000000⟩, ⟨0⟩, ⟨0⟩⟩]
              (fun _ => ⟨5000000000⟩)) =
        1 :=
  ⟨C15_one_notification_per_note_in_window initState
      [⟨1, "late", "", ⟨0⟩, ⟨0⟩, ⟨0⟩⟩, ⟨2, "far", "", ⟨864005000000000⟩, ⟨0⟩, ⟨0⟩⟩]
      [1, 0] (fun _ => ⟨5000000000⟩) (by decide) (by decide)
      (List.Perm.swap 0 1 []),
    by decide⟩

theorem evalNote_flag_iff (st : AlarmState) (note : Note) (now : Time) (id : Nat) :
    mapGet (evalNote st note now).alertTriggered id = true ↔
      mapGet st.alertTriggered id = true ∨
        (note.ID = id ∧ selectedTier note.Deadline now ≠ AlertTier.None) := by
  by_cases hfire : mapGet st.alertTriggered note.ID = false ∧
      selectedTier note.Deadline now ≠ AlertTier.None
  · obtain ⟨msg, hmsg⟩ := evalNote_loud st note now hfire.1 hfire.2
    rw [hmsg]
    show mapGet (mapSet st.alertTriggered note.ID true) id = true ↔ _
    by_cases hid : id = note.ID
    · subst hid
      rw [mapGet_mapSet_self]
      exact ⟨fun _ => Or.inr ⟨rfl, hfire.2⟩, fun _ => rfl⟩
    · rw [mapGet_mapSet_ne _ _ _ _ hid]
      exact ⟨Or.inl, fun h => h.elim (fun x => x) (fun hc => absurd hc.1.symm hid)⟩
  · rw [evalNote_quiet st note now hfire]
    refine ⟨Or.inl, fun h => h.elim (fun x => x) (fun hc => ?_)⟩
    cases hf : mapGet st.alertTriggered note.ID with
    | true => rw [← hc.1]; exact hf
    | false => exact absurd ⟨hf, hc.2⟩ hfire

/-- The flag of `id` after a run: it was set before, or some evaluation of the run is of
a note with that identity inside a tier window. -/
theorem runEvals_flag_iff (evs : List (Note × Time)) (st : AlarmState) (id : Nat) :
    mapGet (runEvals st evs).alertTriggered id = true ↔
      mapGet st.alertTriggered id = true ∨
        ∃ e ∈ evs, e.1.ID = id ∧ selectedTier e.1.Deadline e.2 ≠ AlertTier.None := by
  induction evs generalizing st with
  | nil => simp [runEvals]
  | cons e evs ih =>
    have hstep : runEvals st (e :: evs) = runEvals (evalNote st e.1 e.2) evs := rfl
    rw [hstep, ih (evalNote st e.1 e.2), evalNote_flag_iff]
    constructor
    · rintro ((h | h) | ⟨e', he', h⟩)
      · exact Or.inl h
      · exact Or.inr ⟨e, List.mem_cons_self _ _, h⟩
      · exact Or.inr ⟨e', List.mem_cons_of_mem _ he', h⟩
    · rintro (h | ⟨e', he', h⟩)
      · exact Or.inl (Or.inl h)
      · rcases List.mem_cons.mp he' with heq | hmem
        · subst heq
          exact Or.inl (Or.inr h)
        · exact Or.inr ⟨e', hmem, h⟩

/-- The messages a run adds, and the identities they are for: those not fired before
for which some evaluation of the run is inside a tier window. -/
theorem runEvals_new_pushes (evs : List (Note × Time)) (st : AlarmState) :
    ∃ added, (runEvals st evs).pushed = st.pushed ++ added ∧
      ∀ id, (∃ p ∈ added, p.noteID = id) ↔
        (mapGet st.alertTriggered id = false ∧
          ∃ e ∈ evs, e.1.ID = id ∧ selectedTier e.1.Deadline e.2 ≠ AlertTier.None) := by
  induction evs generalizing st with
  | nil => exact ⟨[], by simp [runEvals], by simp⟩
  | cons e evs ih =>
    have hstep : runEvals st (e :: evs) = runEvals (evalNote st e.1 e.2) evs := rfl
    by_cases hfire : mapGet st.alertTriggered e.1.ID = false ∧
        selectedTier e.1.Deadline e.2 ≠ AlertTier.None
    · obtain ⟨msg, hmsg⟩ := evalNote_loud st e.1 e.2 hfire.1 hfire.2
      obtain ⟨added, hadd, hids⟩ := ih (evalNote st e.1 e.2)
      rw [hmsg] at hadd hids
      refine ⟨⟨e.1.ID, msg⟩ :: added, ?_, ?_⟩
      · rw [hstep, hmsg, hadd]
        simp
      · intro id
        have hget : mapGet (mapSet st.alertTriggered e.1.ID true) id =
            if id = e.1.ID then true else mapGet st.alertTriggered id := by
          by_cases hid : id = e.1.ID
          · rw [if_pos hid, hid, mapGet_mapSet_self]
          · rw [if_neg hid, mapGet_mapSet_ne _ _ _ _ hid]
        have hids' := hids id
        simp only [hget] at hids'
        constructor
        · rintro ⟨p, hp, hpid⟩
          rcases List.mem_cons.mp hp with heq | hmem
          · subst heq
            exact ⟨hpid ▸ hfire.1, e, List.mem_cons_self _ _, hpid, hfire.2⟩
          · obtain ⟨hfalse, e', he', h⟩ := hids'.1 ⟨p, hmem, hpid⟩
            by_cases hid : id = e.1.ID
            · rw [if_pos hid] at hfalse
              exact Bool.noConfusion hfalse
            · rw [if_neg hid] at hfalse
              exact ⟨hfalse, e', List.mem_cons_of_mem _ he', h⟩
        · rintro ⟨hfalse, e', he', h⟩
          by_cases hid : id = e.1.ID
          · exact ⟨⟨e.1.ID, msg⟩, List.mem_cons_self _ _, hid.symm⟩
          · rcases List.mem_cons.mp he' with heq | hmem
            · subst heq
              exact absurd h.1.symm hid
            · obtain ⟨p, hp, hpid⟩ := hids'.2 ⟨by rw [if_neg hid]; exact hfalse, e', hmem, h⟩
              exact ⟨p, List.mem_cons_of_mem _ hp, hpid⟩
    · obtain ⟨added, hadd, hids⟩ := ih st
      refine ⟨added, ?_, ?_⟩
      · rw [hstep, evalNote_quiet st e.1 e.2 hfire]
        exact hadd
      · intro id
        rw [hids id]
        constructor
        · rintro ⟨hfalse, e', he', h⟩
          exact ⟨hfalse, e', List.mem_cons_of_mem _ he', h⟩
        · rintro ⟨hfalse, e', he', h⟩
          rcases List.mem_cons.mp he' with heq | hmem
          · subst heq
            exact absurd ⟨h.1 ▸ hfalse, h.2⟩ hfire
          · exact ⟨hfalse, e', hmem, h⟩

/-- The evaluations of a snapshot at one clock value, for an order that runs every
goroutine: the notes of the snapshot. -/
theorem mem_scheduled_const (notes : List Note) (order : List Nat) (now : Time)
    (horder : order.Perm (List.range notes.length)) (e : Note × Time) :
    e ∈ scheduled notes order (fun _ => now) ↔ e.1 ∈ notes ∧ e.2 = now := by
  simp only [scheduled, List.mem_filterMap, Option.map_eq_some']
  constructor
  · rintro ⟨i, _, note, hi, rfl⟩
    exact ⟨List.get?_mem hi, rfl⟩
  · rintro ⟨hmem, hnow⟩
    obtain ⟨i, hi⟩ := List.mem_iff_get?.mp hmem
    have hlt : i < notes.length := (List.get?_eq_some.mp hi).1
    refine ⟨i, (List.Perm.mem_iff horder).2 (List.mem_range.2 hlt), e.1, hi, ?_⟩
    rw [← hnow]

theorem exists_scheduled_iff (notes : List Note) (order : List Nat) (now : Time)
    (horder : order.Perm (List.range notes.length)) (id : Nat) :
    (∃ e ∈ scheduled notes order (fun _ => now),
        e.1.ID = id ∧ selectedTier e.1.Deadline e.2 ≠ AlertTier.None) ↔
      ∃ n ∈ notes, n.ID = id ∧ remainingTime n.Deadline now ≤ 24 * Hour := by
  constructor
  · rintro ⟨e, he, hid, ht⟩
    obtain ⟨hmem, hnow⟩ := (mem_scheduled_const notes order now horder e).1 he
    rw [hnow] at ht
    exact ⟨e.1, hmem, hid, (selectedTier_ne_None_iff _ _).1 ht⟩
  · rintro ⟨n, hmem, hid, hr⟩
    exact ⟨(n, now), (mem_scheduled_const notes order now horder (n, now)).2 ⟨hmem, rfl⟩, hid,
      (selectedTier_ne_None_iff _ _).2 hr⟩

/-- C19: for a snapshot that may repeat identities, any initial state and one clock
value, whatever the order of the goroutines: the flag of an identity is true afterwards
exactly when it was true before or the snapshot has a note of that identity with a
`remainingTime` of at most 24 hours, and an identity gets a notification exactly when it
had not fired before and the snapshot has such a note. -/
theorem C19_outcome_independent_of_order (st : AlarmState) (notes : List Note)
    (order : List Nat) (now : Time) (horder : order.Perm (List.range notes.length))
    (id : Nat) :
    (mapGet (SetAlarmForNotes st notes order (fun _ => now)).alertTriggered id = true ↔
        mapGet st.alertTriggered id = true ∨
          ∃ n ∈ notes, n.ID = id ∧ remainingTime n.Deadline now ≤ 24 * Hour) ∧
      ((∃ p ∈ (SetAlarmForNotes st notes order (fun _ => now)).pushed.drop st.pushed.length,
          p.noteID = id) ↔
        mapGet st.alertTriggered id = false ∧
          ∃ n ∈ notes, n.ID = id ∧ remainingTime n.Deadline now ≤ 24 * Hour) := by
  rw [SetAlarmForNotes_eq_runEvals]
  constructor
  · rw [runEvals_flag_iff, exists_scheduled_iff notes order now horder id]
  · obtain ⟨added, hadd, hids⟩ := runEvals_new_pushes (scheduled notes order (fun _ => now)) st
    rw [hadd, List.drop_left, hids id, exists_scheduled_iff notes order now horder id]

theorem C19_outcome_independent_of_order_witness :
    (mapGet
          (SetAlarmForNotes initState
            [⟨1, "a", "", ⟨900000000000000⟩, ⟨0⟩, ⟨0⟩⟩, ⟨1, "b", "", ⟨5⟩, ⟨0⟩, ⟨0⟩⟩]
            [1, 0] (fun _ => ⟨7⟩)).alertTriggered 1 =
        true ↔
      mapGet initState.alertTriggered 1 = true ∨
        ∃ n ∈ [(⟨1, "a", "", ⟨900000000000000⟩, ⟨0⟩, ⟨0⟩⟩ : Note), ⟨1, "b", "", ⟨5⟩, ⟨0⟩, ⟨0⟩⟩],
          n.ID = 1 ∧ remainingTime n.Deadline ⟨7⟩ ≤ 24 * Hour) :=
  (C19_outcome_independent_of_order initState
    [⟨1, "a", "", ⟨900000000000000⟩, ⟨0⟩, ⟨0⟩⟩, ⟨1, "b", "", ⟨5⟩, ⟨0⟩, ⟨0⟩⟩]
    [1, 0] ⟨7⟩ (List.Perm.swap 0 1 []) 1).1

/-! ## Handlers (C17, C18) -/

/-- C17 on the code: a create request with a valid title, for which the lookup of the
title fails with a repository error other than record-not-found, makes `CreateNote`
return `failed to check duplicate title`; the handler finds `duplicate title` inside that
text and answers 400 with the duplicate-title message, not 500. -/
theorem C17_lookup_failure_answered_as_duplicate :
    (CreateNote ⟨0, "Test Note", "", ⟨0⟩, ⟨0⟩, ⟨0⟩⟩
          ⟨(none, some (RepoError.other "connection refused")), none, Except.ok ⟨0⟩, ⟨0⟩, ⟨0⟩,
            none, 1⟩).err =
        some "failed to check duplicate title" ∧
      (CreateNoteHandler (Except.ok ⟨0, "Test Note", "", ⟨0⟩, ⟨0⟩, ⟨0⟩⟩)
          (fun n =>
            CreateNote n
              ⟨(none, some (RepoError.other "connection refused")), none, Except.ok ⟨0⟩, ⟨0⟩,
                ⟨0⟩, none, 1⟩)).response =
        ⟨400, Body.error "Duplicate title, please choose a different title"⟩ ∧
      (CreateNoteHandler (Except.ok ⟨0, "Test Note", "", ⟨0⟩, ⟨0⟩, ⟨0⟩⟩)
          (fun n =>
            CreateNote n
              ⟨(none, none), none, Except.ok ⟨0⟩, ⟨0⟩, ⟨0⟩,
                some (RepoError.other "connection refused"), 1⟩)).response =
        ⟨500, Body.error "Failed to create note"⟩ := by
  decide

theorem validateVar_of_bad_length (title : String)
    (h : title.length < 3 ∨ 50 < title.length) : ∃ e, validateVar title = some e := by
  unfold validateVar
  by_cases h0 : title.length = 0
  · exact ⟨_, if_pos h0⟩
  · rw [if_neg h0]
    by_cases h3 : title.length < 3
    · exact ⟨_, if_pos h3⟩
    · rw [if_neg h3]
      have h50 : 50 < title.length := h.resolve_left h3
      exact ⟨_, if_pos h50⟩

theorem validateVar_of_good_length (title : String) (h3 : 3 ≤ title.length)
    (h50 : title.length ≤ 50) : validateVar title = none := by
  unfold validateVar
  rw [if_neg (by omega), if_neg (by omega), if_neg (by omega)]

/-- C18, as stated, fails for updates: a request with the path parameter `invalid` and a
body that binds to a note with an empty title is answered 400 with `Invalid note ID`,
which is not the validation error. -/
theorem C18_counterexample :
    ¬ ∀ (idParam : String) (note : Note) (svc : Note → ServiceResult),
        (note.Title.length < 3 ∨ 50 < note.Title.length) →
        ∃ e, validateNoteFields note = some e ∧
          UpdateNoteHandler idParam (Except.ok note) svc = ⟨⟨400, Body.error e⟩, []⟩ := by
  intro h
  obtain ⟨e, he, hr⟩ := h "invalid" ⟨0, "", "", ⟨0⟩, ⟨0⟩, ⟨0⟩⟩ (fun n => ⟨none, n, []⟩)
    (Or.inl (by decide))
  have hv : validateNoteFields ⟨0, "", "", ⟨0⟩, ⟨0⟩, ⟨0⟩⟩ =
      some (fieldErrorText "required") := by decide
  rw [hv] at he
  have hee : fieldErrorText "required" = e := Option.some.inj he
  subst hee
  revert hr
  decide

/-- C18, amended: a create request, or an update request whose path parameter parses as
an ID, whose body binds to a note with a title shorter than 3 or longer than 50
characters (the empty title included) is answered 400 with the validation error and
the note service is not called; a title of 3 to 50 characters passes
`validateNoteFields`. -/
theorem C18_invalid_title_rejected (note : Note) (svc : Note → ServiceResult)
    (idParam : String) (noteID : Nat) :
    ((note.Title.length < 3 ∨ 50 < note.Title.length) →
        ∃ e, validateNoteFields note = some e ∧
          CreateNoteHandler (Except.ok note) svc = ⟨⟨400, Body.error e⟩, []⟩ ∧
          (ParseUint idParam = some noteID →
            UpdateNoteHandler idParam (Except.ok note) svc = ⟨⟨400, Body.error e⟩, []⟩)) ∧
      (3 ≤ note.Title.length → note.Title.length ≤ 50 → validateNoteFields note = none) := by
  constructor
  · intro hbad
    obtain ⟨e, he⟩ := validateVar_of_bad_length note.Title hbad
    have hv : validateNoteFields note = some e := he
    refine ⟨e, hv, ?_, ?_⟩
    · simp only [CreateNoteHandler, hv]
    · intro hid
      simp only [UpdateNoteHandler, hid, hv]
  · intro h3 h50
    exact validateVar_of_good_length note.Title h3 h50

theorem C18_invalid_title_rejected_witness :
    ∃ e, validateNoteFields ⟨0, "ab", "", ⟨0⟩, ⟨0⟩, ⟨0⟩⟩ = some e ∧
      CreateNoteHandler (Except.ok ⟨0, "ab", "", ⟨0⟩, ⟨0⟩, ⟨0⟩⟩) (fun n => ⟨none, n, [n]⟩) =
        ⟨⟨400, Body.error e⟩, []⟩ ∧
      (ParseUint "1" = some 1 →
        UpdateNoteHandler "1" (Except.ok ⟨0, "ab", "", ⟨0⟩, ⟨0⟩, ⟨0⟩⟩) (fun n => ⟨none, n, [n]⟩) =
          ⟨⟨400, Body.error e⟩, []⟩) :=
  (C18_invalid_title_rejected ⟨0, "ab", "", ⟨0⟩, ⟨0⟩, ⟨0⟩⟩ (fun n => ⟨none, n, [n]⟩) "1" 1).1
    (Or.inl (by decide))

end NoteAlarm
